import Mathlib

/-! Snowman ray-tracing scene: a verification development.

A shallow embedding of `src/application.hpp` and `src/application.cpp`
(class `Application`) and theorems about it.

Conventions of the embedding.

* `float` and `double` values are modelled by exact rationals `ℚ`; a decimal
  literal such as `0.8f` stands for the rational `8/10`. The narrowing
  `(float)glm::fract(..)` in `update` is modelled by `float_narrow`, because
  it decides whether the hue reaches 360.
* `static_cast<int>` on a floating value is truncation toward zero (`truncToInt`);
  the C++ `%` on `int` is the truncated remainder `Int.tmod`.
* A C array `T a[n]` is a function `Fin n → T`; a `std::vector<T>` is a `List T`.
* Code outside the two source files (the PV227 framework, GLM, ImGui, libm,
  OpenGL) is either taken as a parameter (`Env`, `UIInput`) or modelled by the
  data it is handed.
-/

namespace RayTracingScene

/-! ## Constants of `application.hpp` -/

/-- The number of spheres forming the snowman. -/
def snowman_size : Nat := 10

/-- The number of lights in the scene. -/
def light_count : Nat := 3

/-- The max number of particles. -/
def max_particle_count : Nat := 131072

/-! ## GLM vectors -/

/-- The type `glm::vec3`. -/
structure Vec3 where
  x : ℚ
  y : ℚ
  z : ℚ
  deriving DecidableEq, Repr

/-- The type `glm::vec4`. -/
structure Vec4 where
  x : ℚ
  y : ℚ
  z : ℚ
  w : ℚ
  deriving DecidableEq, Repr

/-- The constructor `glm::vec3(a)`: all components equal. -/
def Vec3.splat (a : ℚ) : Vec3 := ⟨a, a, a⟩

/-- Component-wise product `a * b` of two `glm::vec3`. -/
def Vec3.mul (a b : Vec3) : Vec3 := ⟨a.x * b.x, a.y * b.y, a.z * b.z⟩

/-- The constructor `glm::vec4(v, w)`. -/
def Vec4.ofVec3 (v : Vec3) (w : ℚ) : Vec4 := ⟨v.x, v.y, v.z, w⟩

/-- The conversion `glm::vec3(v)` of a `glm::vec4`: drops the fourth component. -/
def Vec4.xyz (v : Vec4) : Vec3 := ⟨v.x, v.y, v.z⟩

/-! ## Numeric helpers -/

/-- The conversion `static_cast<int>(q)`: truncation toward zero. -/
def truncToInt (q : ℚ) : Int := if 0 ≤ q then ⌊q⌋ else ⌈q⌉

/-- The function `glm::fract(x) = x - floor(x)`. -/
def fract (q : ℚ) : ℚ := q - ⌊q⌋

/-- Rounding to the nearest integer, ties to the even one. -/
def round_half_even (q : ℚ) : Int :=
  let f := ⌊q⌋
  let r := q - f
  if r < 1 / 2 then f
  else if 1 / 2 < r then f + 1
  else if f % 2 = 0 then f
  else f + 1

/-- The narrowing conversion `(float)x` of a `double x`: the nearest value of the
binary32 grid (24-bit significand, exponent at least -126), ties to even.
Overflow to infinity, which needs `|x| ≥ 2^128`, is outside the model. -/
def float_narrow (q : ℚ) : ℚ :=
  let e : Int := max (Int.log 2 |q|) (-126)
  let ulp : ℚ := 2 ^ (e - 23)
  (round_half_even (q / ulp) : ℚ) * ulp

/-! ## `Application::HSVtoRGB` (application.cpp 164-212) -/

/-- Converts a colour in HSV to RGB, statement by statement as in the source. -/
def HSVtoRGB (h s v : ℚ) : Vec3 :=
  let i : Int := Int.tmod (truncToInt (h / 60)) 6
  let f : ℚ := (h / 60) - i
  let p : ℚ := v * (1 - s)
  let q : ℚ := v * (1 - f * s)
  let t : ℚ := v * (1 - (1 - f) * s)
  match i with
  | 0 => ⟨v, t, p⟩
  | 1 => ⟨q, v, p⟩
  | 2 => ⟨p, v, t⟩
  | 3 => ⟨p, q, v⟩
  | 4 => ⟨t, p, v⟩
  | 5 => ⟨v, p, q⟩
  | _ => ⟨0, 0, 0⟩

/-! ## Data of `application.hpp` and of the framework types it uses -/

/-- The framework type `PBRMaterialData`, as the three arguments of its constructor
`PBRMaterialData(diffuse, f0, roughness)`. -/
structure PBRMaterialData where
  diffuse : Vec3
  f0 : Vec3
  roughness : ℚ
  deriving DecidableEq, Repr

/-- The structure defining the snowman: two C arrays of length
`snowman_size + light_count`. -/
structure Snowman where
  spheres : Fin (snowman_size + light_count) → Vec4
  materials : Fin (snowman_size + light_count) → PBRMaterialData

/-- The assignment `a[i] = v` on a C array of length `n`. An index outside the array
(undefined in C++, never produced by the code below) leaves the array as it is. -/
def arraySet {α : Type} {n : Nat} (a : Fin n → α) (i : Nat) (v : α) : Fin n → α :=
  fun j => if j.val = i then v else a j

/-- The structure `Particle`. -/
structure Particle where
  position : Vec4
  velocity : Vec3
  light_id : Int
  color : Vec3
  delay : ℚ
  lifetime : ℚ
  deriving DecidableEq, Repr

/-- A value-initialised `Particle`, as `std::vector::resize` appends. -/
def Particle.zero : Particle := ⟨⟨0, 0, 0, 0⟩, ⟨0, 0, 0⟩, 0, ⟨0, 0, 0⟩, 0, 0⟩

/-- The framework type `PhongLightData`, as the arguments handed to
`PhongLightData::CreatePointLight(position, ambient, diffuse, specular,
atten_constant, atten_linear, atten_quadratic)`. -/
structure PhongLightData where
  position : Vec3
  ambient : Vec3
  diffuse : Vec3
  specular : Vec3
  atten_constant : ℚ
  atten_linear : ℚ
  atten_quadratic : ℚ
  deriving DecidableEq, Repr

/-- The framework type `PhongMaterialData`, as the arguments of the constructor
`PhongMaterialData(diffuse, lights, shininess, alpha)` used in `raster_snowman`. -/
structure PhongMaterialData where
  diffuse : Vec3
  lights : Bool
  shininess : ℚ
  alpha : ℚ
  deriving DecidableEq, Repr

/-- The call `phong_lights_ubo.get_light(i)` on the list of lights added since the
last `clear()`. An index past the end (never produced by the code below) reads
a zero light. -/
def get_light (lights : List PhongLightData) (i : Nat) : PhongLightData :=
  lights.getD i ⟨⟨0, 0, 0⟩, ⟨0, 0, 0⟩, ⟨0, 0, 0⟩, ⟨0, 0, 0⟩, 0, 0, 0⟩

/-- The value of `glDepthFunc`. -/
inductive DepthFunc
  | LESS
  | ALWAYS
  deriving DecidableEq, Repr

/-- The draw calls a frame issues, each with the data the device reads for it. -/
inductive DrawCmd
  /-- One `sphere.draw()` of the first loop of `raster_snowman`: model matrix
  `translate(center) * scale(radius)`, white material when `white`, else black. -/
  | lit_sphere (center : Vec3) (radius : ℚ) (white : Bool)
  /-- One `sphere.draw()` of the light loop of `raster_snowman`. -/
  | unlit_sphere (center : Vec3) (radius : ℚ) (material : PhongMaterialData)
  /-- The full-screen triangle of `ray_trace_snowman`, with the bound snowman
  buffer and the uniforms `spheres_count`, `iterations`, `shadow_samples`, `time`,
  `use_ambient_occlusion`, `ambient_occlusion_samples`. -/
  | full_screen_quad (scene : Snowman) (spheres_count : Nat) (iterations : Int)
      (shadow_samples : Int) (time : ℚ) (use_ambient_occlusion : Bool)
      (ambient_occlusion_samples : Int)
  /-- The call `glDrawArrays(GL_POINTS, 0, count)` of `render_particles`, with the
  bound particle buffer. -/
  | points (count : Nat) (buffer : List Particle)

/-! ## The random generator -/

/-- The state of `std::mt19937 gen` seen through `real_dist`: `draws k` is the value
that the `k`-th call `real_dist(gen)` returns, already converted to `float`, and
`pos` counts the calls made so far. -/
structure Gen where
  draws : Nat → ℚ
  pos : Nat

/-- One call `real_dist(gen)`: returns the next value and advances the generator. -/
def real_dist (gen : Gen) : ℚ × Gen := (gen.draws gen.pos, { gen with pos := gen.pos + 1 })

/-- A generator that has made no draw yet. -/
def Gen.seeded (draws : Nat → ℚ) : Gen := ⟨draws, 0⟩

/-! ## The application state -/

/-- The members of `Application` that the modelled functions read or write, the
member `elapsed_time` of its base class, and the device-side data that the code
uploads: the snowman buffer, the particle buffer, and the draw calls of the
current frame. The counts `desired_snow_count` and `current_snow_count` are `int`
in the source; they only ever hold `4096`, `256` and values of `2^(e+8)`, so
they are natural numbers here. -/
structure App where
  elapsed_time : ℚ
  snowman : Snowman
  snowman_ubo : Snowman
  phong_lights_ubo : List PhongLightData
  light_material_ubo : PhongMaterialData
  reflections : Int
  desired_snow_count : Nat
  current_snow_count : Nat
  show_particles : Bool
  shadow_samples : Int
  sphere_light_radius : ℚ
  corrective_use_ambient_occlusion : Bool
  ambient_occlusion_samples : Int
  use_ray_tracing : Bool
  particle_data : List Particle
  particle_ssbo : List Particle
  /-- One entry per `glBufferData` call on `particle_ssbo`: the number of
  `Particle` records handed to the device. -/
  ssbo_uploads : List Nat
  particle_size : ℚ
  t_delta : ℚ
  fps_gpu : Option ℚ
  depth_test : Bool
  depth_func : DepthFunc
  depth_mask : Bool
  blend : Bool
  frame : List DrawCmd

/-- The state when the constructor body starts: the default member initialisers of
`application.hpp`; members without an initialiser (`snowman`, the buffers) hold
whatever `snowman0` and `material0` give. -/
def App.fresh (snowman0 : Snowman) (material0 : PhongMaterialData) : App where
  elapsed_time := 0
  snowman := snowman0
  snowman_ubo := snowman0
  phong_lights_ubo := []
  light_material_ubo := material0
  reflections := 3
  desired_snow_count := 4096
  current_snow_count := 256
  show_particles := true
  shadow_samples := 16
  sphere_light_radius := 1 / 2
  corrective_use_ambient_occlusion := true
  ambient_occlusion_samples := 16
  use_ray_tracing := false
  particle_data := []
  particle_ssbo := []
  ssbo_uploads := []
  particle_size := 1 / 2
  t_delta := 0
  fps_gpu := none
  depth_test := false
  depth_func := DepthFunc.LESS
  depth_mask := true
  blend := false
  frame := []

/-! ## Start-up: `prepare_materials`, `prepare_snowman`, `prepare_lights`, `prepare_scene` -/

/-- The function `Application::prepare_materials` (application.cpp 51-67). -/
def prepare_materials (s : App) : App :=
  let snow_material : PBRMaterialData := ⟨Vec3.splat 1, Vec3.splat (4 / 100), 1⟩
  let coal_material : PBRMaterialData := ⟨Vec3.splat (1 / 10), Vec3.splat (4 / 1000), 1⟩
  let m := s.snowman.materials
  let m := arraySet m 0 snow_material
  let m := arraySet m 1 snow_material
  let m := arraySet m 2 snow_material
  let m := arraySet m 3 snow_material
  let m := arraySet m 4 snow_material
  let m := arraySet m 5 coal_material
  let m := arraySet m 6 coal_material
  let m := arraySet m 7 coal_material
  let m := arraySet m 8 coal_material
  let m := arraySet m 9 coal_material
  { s with snowman := { s.snowman with materials := m } }

/-- The function `Application::prepare_snowman` (application.cpp 80-95). -/
def prepare_snowman (s : App) : App :=
  let a := s.snowman.spheres
  let a := arraySet a 0 ⟨0, 12 / 10, 0, 15 / 10⟩
  let a := arraySet a 1 ⟨0, 35 / 10, 0, 1⟩
  let a := arraySet a 2 ⟨0, 49 / 10, 0, 7 / 10⟩
  let a := arraySet a 3 ⟨1, 36 / 10, 0, 5 / 10⟩
  let a := arraySet a 4 ⟨-1, 36 / 10, 0, 5 / 10⟩
  let a := arraySet a 5 ⟨25 / 100, 52 / 10, 55 / 100, 1 / 10⟩
  let a := arraySet a 6 ⟨-(25 / 100), 52 / 10, 55 / 100, 1 / 10⟩
  let a := arraySet a 7 ⟨0, 39 / 10, 9 / 10, 1 / 10⟩
  let a := arraySet a 8 ⟨0, 35 / 10, 1, 1 / 10⟩
  let a := arraySet a 9 ⟨0, 31 / 10, 9 / 10, 1 / 10⟩
  { s with snowman := { s.snowman with spheres := a } }

/-- The function `Application::prepare_lights` (application.cpp 75-78): a new, empty
light buffer. -/
def prepare_lights (s : App) : App := { s with phong_lights_ubo := [] }

/-- The function `Application::prepare_scene` (application.cpp 153-155): uploads the
snowman. -/
def prepare_scene (s : App) : App := { s with snowman_ubo := s.snowman }

/-! ## The particle store: `prepare_particles`, `update_particle_buffer` -/

/-- The assignment `particle_data[i].field = ...`, written as a change `f` of the
record at index `i`. An index past the end (undefined in C++) changes nothing. -/
def modifyAt (pd : List Particle) (i : Nat) (f : Particle → Particle) : List Particle :=
  match pd[i]? with
  | some p => pd.set i (f p)
  | none => pd

/-- The call `particle_data.resize(n)`: keeps the first `n` records and pads with
value-initialised ones. -/
def vector_resize (pd : List Particle) (n : Nat) : List Particle :=
  pd.take n ++ List.replicate (n - pd.length) Particle.zero

/-- The call `glBufferData(GL_SHADER_STORAGE_BUFFER, sizeof(Particle) * count,
particle_data.data(), GL_DYNAMIC_DRAW)` on `particle_ssbo`: the device buffer
becomes a copy of the first `count` records. -/
def upload_particles (s : App) : App :=
  { s with particle_ssbo := s.particle_data.take s.desired_snow_count,
           ssbo_uploads := s.ssbo_uploads ++ [s.desired_snow_count] }

/-- The loop body of `prepare_particles` (application.cpp 109-114) at index `i`. -/
def prepare_particles_body (st : List Particle × Gen) (i : Nat) : List Particle × Gen :=
  let pd := st.1
  let gen := st.2
  let pd := modifyAt pd i (fun p => { p with light_id := ((i % 3 : Nat) : Int) })
  let r := real_dist gen
  let pd := modifyAt pd i (fun p => { p with delay := r.1 })
  let gen := r.2
  let pd := modifyAt pd i (fun p => { p with position := ⟨0, 0, 0, 0⟩ })
  let pd := modifyAt pd i (fun p => { p with velocity := ⟨0, 0, 0⟩ })
  let pd := modifyAt pd i (fun p => { p with color := ⟨1, 1, 1⟩ })
  (pd, gen)

/-- The function `Application::prepare_particles` (application.cpp 97-125); `gen` is
the generator it creates. -/
def prepare_particles (gen : Gen) (s : App) : App :=
  let pd := vector_resize s.particle_data max_particle_count
  let st := (List.range s.desired_snow_count).foldl prepare_particles_body (pd, gen)
  upload_particles { s with particle_data := st.1 }

/-- The loop body of `update_particle_buffer` (application.cpp 139-145) at index `i`. -/
def update_particle_buffer_body (st : List Particle × Gen) (i : Nat) :
    List Particle × Gen :=
  let pd := st.1
  let gen := st.2
  let pd := modifyAt pd i (fun p => { p with light_id := ((i % 3 : Nat) : Int) })
  let r := real_dist gen
  let pd := modifyAt pd i (fun p => { p with lifetime := r.1 })
  let gen := r.2
  let pd := modifyAt pd i (fun p => { p with delay := p.lifetime })
  let pd := modifyAt pd i (fun p => { p with position := ⟨0, 0, 0, 0⟩ })
  let pd := modifyAt pd i (fun p => { p with velocity := ⟨0, 0, 0⟩ })
  let pd := modifyAt pd i (fun p => { p with color := ⟨1, 1, 1⟩ })
  (pd, gen)

/-- The function `Application::update_particle_buffer` (application.cpp 127-151);
`gen` is the generator it creates. -/
def update_particle_buffer (gen : Gen) (s : App) : App :=
  let st := (List.range s.desired_snow_count).foldl update_particle_buffer_body
    (s.particle_data, gen)
  upload_particles { s with particle_data := st.1 }

/-- The constructor `Application::Application` (application.cpp 6-17), from
`prepare_materials` on; shaders, camera and textures are device objects outside
the model. -/
def construct (gen : Gen) (s : App) : App :=
  prepare_scene (prepare_particles gen (prepare_lights (prepare_snowman (prepare_materials s))))

/-! ## `Application::update` (application.cpp 214-247) -/

/-- Code outside the repository that `update` calls: `cosf` and `sinf` of libm, and
`PV227Application::update`, which can only touch members of the base class
(`base_update elapsed_time delta` is `elapsed_time` after it). -/
structure Env where
  cosf : ℚ → ℚ
  sinf : ℚ → ℚ
  base_update : ℚ → ℚ → ℚ

/-- The local vector `positions` of `update` for `app_time_s = t`. -/
def light_positions (env : Env) (t : ℚ) : List Vec3 :=
  [ Vec3.mul ⟨4, 6, 4⟩ ⟨env.cosf (t + 314 / 100), 1, env.sinf (t + 314 / 100)⟩,
    Vec3.mul ⟨4, 4, 4⟩ ⟨env.cosf (t - 314 / 100 / 2), 1, env.sinf (t + 314 / 100 / 2)⟩,
    Vec3.mul ⟨5, 2, 5⟩ ⟨env.cosf t, 1, env.sinf t⟩ ]

/-- The indexing `positions[i]`; past the end (not produced by `update`) reads zero. -/
def position_at (positions : List Vec3) (i : Nat) : Vec3 := positions.getD i ⟨0, 0, 0⟩

/-- The body of the first loop of `update` (application.cpp 233-235): adds light `i`.
The hue is `(float)glm::fract(..) * 360.f`: the fraction is computed in `double`
and narrowed to `float` before the product, and the narrowing can round it up
to `1`. -/
def update_light_body (positions : List Vec3) (app_time_s : ℚ) (s : App) (i : Nat) : App :=
  let color :=
    HSVtoRGB (float_narrow (fract (app_time_s * (1 / 10) + (33 / 100) * i)) * 360) 1 (8 / 10)
  let light : PhongLightData :=
    ⟨position_at positions i, Vec3.splat 0, color, Vec3.splat (1 / 10), 1, 0, 0⟩
  { s with phong_lights_ubo := s.phong_lights_ubo ++ [light] }

/-- The body of the second loop of `update` (application.cpp 239-242): writes the
marker sphere and material of light `i`. -/
def update_marker_body (positions : List Vec3) (s : App) (i : Nat) : App :=
  let light_pbr_material : PBRMaterialData :=
    ⟨(get_light s.phong_lights_ubo i).diffuse, Vec3.splat 0, 0⟩
  let s := { s with snowman := { s.snowman with
    spheres := arraySet s.snowman.spheres (i + snowman_size)
      (Vec4.ofVec3 (position_at positions i) s.sphere_light_radius) } }
  { s with snowman := { s.snowman with
    materials := arraySet s.snowman.materials (i + snowman_size) light_pbr_material } }

/-- The function `Application::update`; the camera buffer is outside the model. -/
def update (env : Env) (delta : ℚ) (s : App) : App :=
  let s := { s with elapsed_time := env.base_update s.elapsed_time delta }
  let app_time_s : ℚ := s.elapsed_time * (1 / 1000)
  let s := { s with t_delta := delta }
  let s := { s with phong_lights_ubo := [] }
  let positions := light_positions env app_time_s
  let s := (List.range positions.length).foldl (update_light_body positions app_time_s) s
  let s := (List.range light_count).foldl (update_marker_body positions) s
  { s with snowman_ubo := s.snowman }

/-! ## Rendering (application.cpp 252-395) -/

/-- The function `Application::ray_trace_snowman` (application.cpp 294-320). -/
def ray_trace_snowman (s : App) : App :=
  let s := { s with depth_test := true }
  let s := { s with depth_func := DepthFunc.ALWAYS }
  let s := { s with frame := s.frame ++ [DrawCmd.full_screen_quad s.snowman_ubo
    (snowman_size + light_count) s.reflections s.shadow_samples
    (s.elapsed_time * (1 / 1000)) s.corrective_use_ambient_occlusion
    s.ambient_occlusion_samples] }
  { s with depth_func := DepthFunc.LESS }

/-- The body of the first loop of `raster_snowman` (application.cpp 325-349) for the
array element `j`; the state is `id`, the draw calls so far, and whether `break`
was taken. -/
def raster_body (s : App) (st : Nat × List DrawCmd × Bool)
    (j : Fin (snowman_size + light_count)) : Nat × List DrawCmd × Bool :=
  if st.2.2 then st
  else
    let sph := s.snowman.spheres j
    let out := st.2.1 ++ [DrawCmd.lit_sphere sph.xyz sph.w (decide (st.1 < 5))]
    let id := st.1 + 1
    (id, out, decide (id = snowman_size))

/-- The body of the second loop of `raster_snowman` (application.cpp 352-367). -/
def raster_light_body (s : App) (i : Nat) : App :=
  let light := get_light s.phong_lights_ubo i
  let s := { s with light_material_ubo := ⟨light.diffuse, true, 200, 1⟩ }
  { s with frame := s.frame ++
    [DrawCmd.unlit_sphere light.position s.sphere_light_radius s.light_material_ubo] }

/-- The function `Application::raster_snowman` (application.cpp 322-368). -/
def raster_snowman (s : App) : App :=
  let st := (List.finRange (snowman_size + light_count)).foldl (raster_body s)
    (0, s.frame, false)
  let s := { s with frame := st.2.1 }
  (List.range 3).foldl raster_light_body s

/-- The function `Application::render_particles` (application.cpp 370-395). -/
def render_particles (s : App) : App :=
  let s := { s with depth_mask := false }
  let s := { s with blend := true }
  let s := if s.show_particles then
      { s with frame := s.frame ++ [DrawCmd.points s.desired_snow_count s.particle_ssbo] }
    else s
  let s := { s with depth_mask := true }
  { s with blend := false }

/-- The function `Application::render` (application.cpp 252-292); `render_time` is
the result of the time query, in nanoseconds. A zero `render_time` makes
`fps_gpu` a non-finite float, which is `none` here. -/
def render (render_time : Nat) (s : App) : App :=
  let s := { s with frame := [] }
  let s := { s with depth_test := true }
  let s := if s.use_ray_tracing then ray_trace_snowman s else raster_snowman s
  let s := render_particles s
  { s with fps_gpu :=
      if render_time = 0 then none else some (1000 / ((render_time : ℚ) * (1 / 1000000))) }

/-! ## The settings panel: `Application::render_ui` (application.cpp 400-438) -/

/-- What the user does to the widgets during one `render_ui`: for each widget the
value it is set to in this frame, or `none` when it is not touched. The combo
returns an index into its ten labels. `draws` is the generator that
`update_particle_buffer` would create in this frame. -/
structure UIInput where
  reflections : Option Int
  particle_count : Option (Fin 10)
  show_particles : Option Bool
  sphere_light_radius : Option ℚ
  shadow_samples : Option Int
  use_ray_tracing : Option Bool
  corrective_use_ambient_occlusion : Option Bool
  ambient_occlusion_samples : Option Int
  draws : Gen

/-- An input that touches no widget. -/
def UIInput.idle (draws : Gen) : UIInput :=
  ⟨none, none, none, none, none, none, none, none, draws⟩

/-- An input that only picks option `k` of the particle-count combo. -/
def UIInput.pick (k : Fin 10) (draws : Gen) : UIInput :=
  ⟨none, some k, none, none, none, none, none, none, draws⟩

/-- The widgets `ImGui::SliderInt`, `ImGui::SliderFloat` with bounds `lo`, `hi`: a
value set by the user is kept inside the bounds. -/
def ImGui_Slider {α : Type} [LinearOrder α] (cur lo hi : α) (inp : Option α) : α :=
  match inp with
  | some x => max lo (min hi x)
  | none => cur

/-- The widget `ImGui::Checkbox`. -/
def ImGui_Checkbox (cur : Bool) (inp : Option Bool) : Bool :=
  match inp with
  | some b => b
  | none => cur

/-- The widget `ImGui::Combo(label, &current_item, items, 10)`: returns whether an
item was picked, and the value of `current_item` afterwards. -/
def ImGui_Combo (current_item : Int) (inp : Option (Fin 10)) : Bool × Int :=
  match inp with
  | some k => (true, (k.val : Int))
  | none => (false, current_item)

/-- The expression `static_cast<int>(log2(c) - 8)` for an `int c`, in exact
arithmetic: truncation toward zero rounds `log2(c) - 8` down when `c ≥ 256` and
up below. At `c = 0` the C++ expression is undefined. -/
def exponent_of_count (c : Nat) : Int :=
  if 256 ≤ c then (Nat.log 2 c : Int) - 8 else (Nat.clog 2 c : Int) - 8

/-- The expression `static_cast<int>(glm::pow(2, e))` on `int`: `2^e`, and `0` for a
negative `e`. -/
def pow2_int (e : Int) : Nat := if 0 ≤ e then 2 ^ e.toNat else 0

/-- The function `Application::render_ui`. -/
def render_ui (inp : UIInput) (s : App) : App :=
  let s := { s with reflections := ImGui_Slider s.reflections 1 100 inp.reflections }
  let s := { s with current_snow_count := s.desired_snow_count }
  let exponent : Int := exponent_of_count s.current_snow_count
  let combo := ImGui_Combo exponent inp.particle_count
  let exponent := combo.2
  let s := if combo.1 then
      update_particle_buffer inp.draws { s with desired_snow_count := pow2_int (exponent + 8) }
    else s
  let s := { s with show_particles := ImGui_Checkbox s.show_particles inp.show_particles }
  let radius := ImGui_Slider s.sphere_light_radius 0 1 inp.sphere_light_radius
  let s := { s with sphere_light_radius := radius }
  let s := { s with shadow_samples := ImGui_Slider s.shadow_samples 1 128 inp.shadow_samples }
  let s := { s with use_ray_tracing := ImGui_Checkbox s.use_ray_tracing inp.use_ray_tracing }
  if s.use_ray_tracing then
    let use_ao :=
      ImGui_Checkbox s.corrective_use_ambient_occlusion inp.corrective_use_ambient_occlusion
    let s := { s with corrective_use_ambient_occlusion := use_ao }
    let samples := ImGui_Slider s.ambient_occlusion_samples 4 64 inp.ambient_occlusion_samples
    { s with ambient_occlusion_samples := samples }
  else s

/-! ## Reachable states -/

/-- The states of a session: the constructed application, then any number of
frames steps `update`, `render`, `render_ui`, with any inputs. -/
inductive Reachable : App → Prop
  | start (snowman0 : Snowman) (material0 : PhongMaterialData) (gen : Gen) :
      Reachable (construct gen (App.fresh snowman0 material0))
  | update (env : Env) (delta : ℚ) (s : App) : Reachable s → Reachable (update env delta s)
  | render (render_time : Nat) (s : App) : Reachable s → Reachable (render render_time s)
  | render_ui (inp : UIInput) (s : App) : Reachable s → Reachable (render_ui inp s)

/-! ## Records that the particle loops leave behind -/

/-- What the loop body of `update_particle_buffer` leaves at index `i` when the draw is `r`. -/
def resized_particle (i : Nat) (r : ℚ) : Particle :=
  ⟨⟨0, 0, 0, 0⟩, ⟨0, 0, 0⟩, ((i % 3 : Nat) : Int), ⟨1, 1, 1⟩, r, r⟩

/-- What the loop body of `prepare_particles` makes of the record `p` at index `i`. -/
def seeded_particle (i : Nat) (r : ℚ) (p : Particle) : Particle :=
  ⟨⟨0, 0, 0, 0⟩, ⟨0, 0, 0⟩, ((i % 3 : Nat) : Int), ⟨1, 1, 1⟩, r, p.lifetime⟩

/-! ## The ray/sphere intersection of the ray-tracing shader -/

/-- The function `dot(a, b)` of GLSL. -/
def Vec3.dot (a b : Vec3) : ℚ := a.x * b.x + a.y * b.y + a.z * b.z

/-- The difference `a - b` of two `vec3`. -/
def Vec3.sub (a b : Vec3) : Vec3 := ⟨a.x - b.x, a.y - b.y, a.z - b.z⟩

/-- The product `k * a` of a scalar and a `vec3`. -/
def Vec3.scale (k : ℚ) (a : Vec3) : Vec3 := ⟨k * a.x, k * a.y, k * a.z⟩

/-- Modelled from the spec: the ray/sphere intersection of `ray_tracing.frag`, the
shader that `ray_trace_snowman` dispatches and whose source is not among the
source files. Spec 4.2 step 1: a closed-form quadratic solve per sphere that
keeps the nearest positive root; spec 7: a negative or near-zero discriminant
is no hit. The ray is `origin + t * direction`, the sphere is
`(center.xyz, radius)`. The shader's square root `sqrt` and the tolerance `eps`
under which a discriminant counts as near zero are not fixed by the spec and
are parameters. -/
def intersect_sphere (sqrt : ℚ → ℚ) (eps : ℚ) (origin direction : Vec3) (sphere : Vec4) :
    Option ℚ :=
  let oc := Vec3.sub origin sphere.xyz
  let a := Vec3.dot direction direction
  let b := 2 * Vec3.dot oc direction
  let c := Vec3.dot oc oc - sphere.w * sphere.w
  let disc := b * b - 4 * a * c
  if disc < eps then none
  else
    let t₁ := (-b - sqrt disc) / (2 * a)
    let t₂ := (-b + sqrt disc) / (2 * a)
    if 0 < t₁ then
      if 0 < t₂ then some (min t₁ t₂) else some t₁
    else if 0 < t₂ then some t₂
    else none

/-- Modelled from the spec: the scene loop of `ray_tracing.frag` over the spheres
from index `i` on, with `best` the nearest hit so far as (index, distance).
Spec 4.2 step 1: keep the nearest hit and resolve ties by the first-encountered
index, so a later sphere replaces `best` only when strictly nearer. -/
def closest_hit_from (sqrt : ℚ → ℚ) (eps : ℚ) (origin direction : Vec3) :
    Nat → Option (Nat × ℚ) → List Vec4 → Option (Nat × ℚ)
  | _, best, [] => best
  | i, best, sphere :: rest =>
    let best :=
      match intersect_sphere sqrt eps origin direction sphere, best with
      | none, best => best
      | some t, none => some (i, t)
      | some t, some (j, d) => if t < d then some (i, t) else some (j, d)
    closest_hit_from sqrt eps origin direction (i + 1) best rest

/-- Modelled from the spec: the nearest hit of a ray in the scene of `ray_tracing.frag`
(spec 4.2 step 1), as (sphere index, distance), or `none` when the ray misses
every sphere. -/
def closest_hit (sqrt : ℚ → ℚ) (eps : ℚ) (origin direction : Vec3) (spheres : List Vec4) :
    Option (Nat × ℚ) :=
  closest_hit_from sqrt eps origin direction 0 none spheres

/-! ## Predicates and concrete inputs used in the statements -/

/-- The active region of a state, for a requested count `n`: the device buffer holds
exactly `n` records, a frame that shows particles draws exactly `n` points from
it, and record `i < n` has `light_id = i mod 3` and a delay in `[0, 5000]`. -/
def ActiveRegion (n : Nat) (s : App) : Prop :=
  s.particle_ssbo.length = n ∧
  (s.show_particles = true →
    (render_particles s).frame = s.frame ++ [DrawCmd.points n s.particle_ssbo]) ∧
  ∀ i : Nat, i < n → ∃ p : Particle,
    s.particle_ssbo[i]? = some p ∧ p.light_id = (i : Int) % 3 ∧ 0 ≤ p.delay ∧ p.delay ≤ 5000

/-- A snowman with all entries zero. -/
def demo_snowman : Snowman := ⟨fun _ => ⟨0, 0, 0, 0⟩, fun _ => ⟨⟨0, 0, 0⟩, ⟨0, 0, 0⟩, 0⟩⟩

/-- A zero material. -/
def demo_material : PhongMaterialData := ⟨⟨0, 0, 0⟩, false, 0, 0⟩

/-- A generator whose draws run through 0, 1000, 2000, 3000, 4000. -/
def demo_gen : Gen := Gen.seeded (fun k => ((k % 5 : Nat) : ℚ) * 1000)

/-- A second generator, constant 2500. -/
def demo_gen_const : Gen := Gen.seeded (fun _ => 2500)

/-- A small state: count 4 over a store of six zero records. -/
def demo_app : App :=
  { App.fresh demo_snowman demo_material with
    desired_snow_count := 4, particle_data := List.replicate 6 Particle.zero }

/-- A second small state: count 4 over a store of five records with old delays. -/
def demo_app_stale : App :=
  { App.fresh demo_snowman demo_material with
    desired_snow_count := 4,
    particle_data := List.replicate 5 ⟨⟨1, 2, 3, 4⟩, ⟨5, 6, 7⟩, 2, ⟨0, 0, 0⟩, 77, 88⟩ }

/-- Stand-ins for libm and the base class: constant `cosf` and `sinf`, and a base
`update` that adds `delta` to the elapsed time. -/
def demo_env : Env := ⟨fun _ => 1, fun _ => 0, fun e d => e + d⟩

/-- The application as constructed, from `demo_snowman` and `demo_gen`. -/
def demo_start : App := construct demo_gen (App.fresh demo_snowman demo_material)

/-- The invariant of the particle store: the count is one of the ten selector
values, the store has its full capacity, and every record below the count is
present in the store and in the device buffer with `light_id = i mod 3`. -/
def CountInvariant (s : App) : Prop :=
  (∃ k : Fin 10, s.desired_snow_count = 2 ^ (k.val + 8)) ∧
  s.particle_data.length = max_particle_count ∧
  ∀ i : Nat, i < s.desired_snow_count → ∃ p : Particle,
    s.particle_data[i]? = some p ∧ s.particle_ssbo[i]? = some p ∧ p.light_id = (i : Int) % 3

/-- The sphere that `prepare_snowman` writes at index `j` of the body. -/
def body_sphere (j : Nat) : Vec4 :=
  match j with
  | 0 => ⟨0, 12 / 10, 0, 15 / 10⟩
  | 1 => ⟨0, 35 / 10, 0, 1⟩
  | 2 => ⟨0, 49 / 10, 0, 7 / 10⟩
  | 3 => ⟨1, 36 / 10, 0, 5 / 10⟩
  | 4 => ⟨-1, 36 / 10, 0, 5 / 10⟩
  | 5 => ⟨25 / 100, 52 / 10, 55 / 100, 1 / 10⟩
  | 6 => ⟨-(25 / 100), 52 / 10, 55 / 100, 1 / 10⟩
  | 7 => ⟨0, 39 / 10, 9 / 10, 1 / 10⟩
  | 8 => ⟨0, 35 / 10, 1, 1 / 10⟩
  | _ => ⟨0, 31 / 10, 9 / 10, 1 / 10⟩

/-- The index of the first light. -/
def light0 : Fin light_count := ⟨0, by decide⟩

/-- The material that `prepare_materials` writes at index `j` of the body: the snow
material below 5, the coal material from 5 on. -/
def body_material (j : Nat) : PBRMaterialData :=
  if j < 5 then ⟨Vec3.splat 1, Vec3.splat (4 / 100), 1⟩
  else ⟨Vec3.splat (1 / 10), Vec3.splat (4 / 1000), 1⟩

/-! ## Evaluation lemmas for `HSVtoRGB` -/

theorem truncToInt_natCast (n : Nat) : truncToInt (n : ℚ) = n := by
  unfold truncToInt
  rw [if_pos (by positivity)]
  exact Int.floor_natCast n

theorem truncToInt_zero : truncToInt 0 = 0 := by
  simpa using truncToInt_natCast 0

theorem HSVtoRGB_at_0 (s v : ℚ) : HSVtoRGB 0 s v = ⟨v, v * (1 - s), v * (1 - s)⟩ := by
  have h0 : Int.tmod 0 6 = 0 := by decide
  simp [HSVtoRGB, truncToInt_zero, h0]

theorem HSVtoRGB_at_360 (s v : ℚ) :
    HSVtoRGB 360 s v = ⟨v, v * (1 + 5 * s), v * (1 - s)⟩ := by
  have h : truncToInt ((360 : ℚ) / 60) = 6 := by
    have := truncToInt_natCast 6
    norm_num at this ⊢
    exact this
  have h6 : Int.tmod 6 6 = 0 := by decide
  simp only [HSVtoRGB, h, h6]
  norm_num

theorem HSVtoRGB_at_120 (s v : ℚ) :
    HSVtoRGB 120 s v = ⟨v * (1 - s), v, v * (1 - s)⟩ := by
  have h : truncToInt ((120 : ℚ) / 60) = 2 := by
    have := truncToInt_natCast 2
    norm_num at this ⊢
    exact this
  have h6 : Int.tmod 2 6 = 2 := by decide
  simp only [HSVtoRGB, h, h6]
  norm_num

theorem HSVtoRGB_at_240 (s v : ℚ) :
    HSVtoRGB 240 s v = ⟨v * (1 - s), v * (1 - s), v⟩ := by
  have h : truncToInt ((240 : ℚ) / 60) = 4 := by
    have := truncToInt_natCast 4
    norm_num at this ⊢
    exact this
  have h6 : Int.tmod 4 6 = 4 := by decide
  simp only [HSVtoRGB, h, h6]
  norm_num

/-! ## The particle loops -/

theorem modifyAt_of_getElem? {pd : List Particle} {i : Nat} {p : Particle}
    (h : pd[i]? = some p) (f : Particle → Particle) : modifyAt pd i f = pd.set i (f p) := by
  simp [modifyAt, h]

theorem getElem?_set_self_of_some {pd : List Particle} {i : Nat} {p : Particle}
    (h : pd[i]? = some p) (q : Particle) : (pd.set i q)[i]? = some q := by
  have hi : i < pd.length := by
    rcases List.getElem?_eq_some_iff.mp h with ⟨hi, _⟩
    exact hi
  simp [List.getElem?_set, hi]

theorem modifyAt_set {pd : List Particle} {i : Nat} {p : Particle}
    (h : pd[i]? = some p) (q : Particle) (f : Particle → Particle) :
    modifyAt (pd.set i q) i f = pd.set i (f q) := by
  rw [modifyAt_of_getElem? (getElem?_set_self_of_some h q), List.set_set]

theorem update_particle_buffer_body_eq {pd : List Particle} {i : Nat} {p : Particle}
    (h : pd[i]? = some p) (gen : Gen) :
    update_particle_buffer_body (pd, gen) i =
      (pd.set i (resized_particle i (gen.draws gen.pos)), ⟨gen.draws, gen.pos + 1⟩) := by
  simp only [update_particle_buffer_body, real_dist]
  rw [modifyAt_of_getElem? h, modifyAt_set h, modifyAt_set h, modifyAt_set h, modifyAt_set h,
    modifyAt_set h]
  rfl

theorem prepare_particles_body_eq {pd : List Particle} {i : Nat} {p : Particle}
    (h : pd[i]? = some p) (gen : Gen) :
    prepare_particles_body (pd, gen) i =
      (pd.set i (seeded_particle i (gen.draws gen.pos) p), ⟨gen.draws, gen.pos + 1⟩) := by
  simp only [prepare_particles_body, real_dist]
  rw [modifyAt_of_getElem? h, modifyAt_set h, modifyAt_set h, modifyAt_set h, modifyAt_set h]
  rfl

/-- A loop `for (i = 0; i < n; i++)` whose body replaces record `i` by `F i r p`,
`r` the next draw and `p` the record before: the records below `n` are replaced,
each with its own draw, the others are kept, and `n` draws are consumed. -/
theorem particle_loop (F : Nat → ℚ → Particle → Particle)
    (body : List Particle × Gen → Nat → List Particle × Gen)
    (hbody : ∀ (pd : List Particle) (gen : Gen) (i : Nat) (p : Particle), pd[i]? = some p →
      body (pd, gen) i = (pd.set i (F i (gen.draws gen.pos) p), ⟨gen.draws, gen.pos + 1⟩))
    (pd : List Particle) (gen : Gen) (n : Nat) (hn : n ≤ pd.length) :
    ((List.range n).foldl body (pd, gen)).2 = ⟨gen.draws, gen.pos + n⟩ ∧
    ((List.range n).foldl body (pd, gen)).1.length = pd.length ∧
    ∀ i : Nat, ((List.range n).foldl body (pd, gen)).1[i]? =
      (pd[i]?).map (fun p => if i < n then F i (gen.draws (gen.pos + i)) p else p) := by
  induction n with
  | zero => simp
  | succ n ih =>
    obtain ⟨ih2, ihlen, ihget⟩ := ih (Nat.le_of_succ_le hn)
    have hlt : n < pd.length := hn
    have hold : ((List.range n).foldl body (pd, gen)).1[n]? = some pd[n] := by
      rw [ihget n]; simp [List.getElem?_eq_getElem hlt]
    have hstep := hbody ((List.range n).foldl body (pd, gen)).1
      ((List.range n).foldl body (pd, gen)).2 n pd[n] hold
    rw [List.range_succ, List.foldl_append, List.foldl_cons, List.foldl_nil]
    have hpair : (List.range n).foldl body (pd, gen) =
        (((List.range n).foldl body (pd, gen)).1, ((List.range n).foldl body (pd, gen)).2) := rfl
    rw [hpair, hstep, ih2]
    refine ⟨rfl, ?_, ?_⟩
    · simp [ihlen]
    · intro i
      simp only [List.getElem?_set, ihlen]
      by_cases hin : n = i
      · subst hin
        simp [hlt, List.getElem?_eq_getElem hlt]
      · rw [if_neg hin, ihget i]
        have : (i < n + 1) = (i < n) := by
          apply propext
          omega
        simp only [this]

theorem vector_resize_length (pd : List Particle) (n : Nat) : (vector_resize pd n).length = n := by
  simp only [vector_resize, List.length_append, List.length_take, List.length_replicate]
  omega

theorem update_particle_buffer_data (gen : Gen) (s : App)
    (hcap : s.desired_snow_count ≤ s.particle_data.length) :
    (update_particle_buffer gen s).particle_data.length = s.particle_data.length ∧
    ∀ i : Nat, (update_particle_buffer gen s).particle_data[i]? =
      (s.particle_data[i]?).map (fun p =>
        if i < s.desired_snow_count then resized_particle i (gen.draws (gen.pos + i)) else p) := by
  have h := particle_loop (fun i r _ => resized_particle i r) update_particle_buffer_body
    (fun pd gen i p hp => update_particle_buffer_body_eq hp gen)
    s.particle_data gen s.desired_snow_count hcap
  exact ⟨h.2.1, h.2.2⟩

theorem update_particle_buffer_ssbo (gen : Gen) (s : App) :
    (update_particle_buffer gen s).particle_ssbo =
      (update_particle_buffer gen s).particle_data.take s.desired_snow_count := rfl

theorem update_particle_buffer_uploads (gen : Gen) (s : App) :
    (update_particle_buffer gen s).ssbo_uploads = s.ssbo_uploads ++ [s.desired_snow_count] := rfl

theorem update_particle_buffer_count (gen : Gen) (s : App) :
    (update_particle_buffer gen s).desired_snow_count = s.desired_snow_count := rfl

/-- After `update_particle_buffer`, every record below the count is the freshly
written one, in the store and in the device buffer, and the device buffer has
exactly `desired_snow_count` records. -/
theorem update_particle_buffer_active (gen : Gen) (s : App)
    (hcap : s.desired_snow_count ≤ s.particle_data.length) :
    (update_particle_buffer gen s).particle_ssbo.length = s.desired_snow_count ∧
    ∀ i : Nat, i < s.desired_snow_count →
      (update_particle_buffer gen s).particle_data[i]? =
        some (resized_particle i (gen.draws (gen.pos + i))) ∧
      (update_particle_buffer gen s).particle_ssbo[i]? =
        some (resized_particle i (gen.draws (gen.pos + i))) := by
  obtain ⟨hlen, hget⟩ := update_particle_buffer_data gen s hcap
  refine ⟨?_, ?_⟩
  · rw [update_particle_buffer_ssbo, List.length_take, hlen]
    omega
  · intro i hi
    have hd : (update_particle_buffer gen s).particle_data[i]? =
        some (resized_particle i (gen.draws (gen.pos + i))) := by
      rw [hget i, List.getElem?_eq_getElem (Nat.lt_of_lt_of_le hi hcap)]
      simp [hi]
    refine ⟨hd, ?_⟩
    rw [update_particle_buffer_ssbo, List.getElem?_take, if_pos hi, hd]

theorem prepare_particles_data (gen : Gen) (s : App)
    (hcap : s.desired_snow_count ≤ max_particle_count) :
    (prepare_particles gen s).particle_data.length = max_particle_count ∧
    ∀ i : Nat, (prepare_particles gen s).particle_data[i]? =
      ((vector_resize s.particle_data max_particle_count)[i]?).map (fun p =>
        if i < s.desired_snow_count then seeded_particle i (gen.draws (gen.pos + i)) p else p) := by
  have h := particle_loop seeded_particle prepare_particles_body
    (fun pd gen i p hp => prepare_particles_body_eq hp gen)
    (vector_resize s.particle_data max_particle_count) gen s.desired_snow_count
    (by rw [vector_resize_length]; exact hcap)
  refine ⟨?_, h.2.2⟩
  have := h.2.1
  rw [vector_resize_length] at this
  exact this

theorem prepare_particles_ssbo (gen : Gen) (s : App) :
    (prepare_particles gen s).particle_ssbo =
      (prepare_particles gen s).particle_data.take s.desired_snow_count := rfl

/-- After `prepare_particles`, every record below the count is a seeded one, in the
store and in the device buffer, and the device buffer has exactly
`desired_snow_count` records. -/
theorem prepare_particles_active (gen : Gen) (s : App)
    (hcap : s.desired_snow_count ≤ max_particle_count) :
    (prepare_particles gen s).particle_ssbo.length = s.desired_snow_count ∧
    ∀ i : Nat, i < s.desired_snow_count → ∃ old : Particle,
      (prepare_particles gen s).particle_data[i]? =
        some (seeded_particle i (gen.draws (gen.pos + i)) old) ∧
      (prepare_particles gen s).particle_ssbo[i]? =
        some (seeded_particle i (gen.draws (gen.pos + i)) old) := by
  obtain ⟨hlen, hget⟩ := prepare_particles_data gen s hcap
  refine ⟨?_, ?_⟩
  · rw [prepare_particles_ssbo, List.length_take, hlen]
    omega
  · intro i hi
    have hlt : i < (vector_resize s.particle_data max_particle_count).length := by
      rw [vector_resize_length]; omega
    refine ⟨(vector_resize s.particle_data max_particle_count)[i], ?_⟩
    have hd : (prepare_particles gen s).particle_data[i]? =
        some (seeded_particle i (gen.draws (gen.pos + i))
          (vector_resize s.particle_data max_particle_count)[i]) := by
      rw [hget i, List.getElem?_eq_getElem hlt]
      simp [hi]
    refine ⟨hd, ?_⟩
    rw [prepare_particles_ssbo, List.getElem?_take, if_pos hi, hd]

theorem demo_gen_range : ∀ k : Nat, 0 ≤ demo_gen.draws k ∧ demo_gen.draws k ≤ 5000 := by
  intro k
  have h : k % 5 < 5 := Nat.mod_lt k (by norm_num)
  have h' : ((k % 5 : Nat) : ℚ) ≤ 4 := by exact_mod_cast Nat.le_of_lt_succ h
  have h0 : (0 : ℚ) ≤ ((k % 5 : Nat) : ℚ) := by positivity
  simp only [demo_gen, Gen.seeded]
  constructor
  · positivity
  · linarith

theorem resized_particle_light_id (i : Nat) (r : ℚ) :
    (resized_particle i r).light_id = (i : Int) % 3 := by
  simp [resized_particle]

theorem seeded_particle_light_id (i : Nat) (r : ℚ) (p : Particle) :
    (seeded_particle i r p).light_id = (i : Int) % 3 := by
  simp [seeded_particle]

theorem render_particles_frame (s : App) (h : s.show_particles = true) :
    (render_particles s).frame = s.frame ++ [DrawCmd.points s.desired_snow_count s.particle_ssbo] := by
  simp [render_particles, h]

/-- C1: `HSVtoRGB` does not wrap the hue at 360: at full saturation and value the
code returns `(1, 6, 0)` for hue 360 and `(1, 0, 0)` for hue 0, so the two
differ (the sector index wraps through `% 6`, the fraction `f` does not). -/
theorem HSVtoRGB_hue_360_not_wrapped :
    HSVtoRGB 360 1 1 = ⟨1, 6, 0⟩ ∧ HSVtoRGB 0 1 1 = ⟨1, 0, 0⟩ ∧
    HSVtoRGB 360 1 1 ≠ HSVtoRGB 0 1 1 := by
  have h360 : HSVtoRGB 360 1 1 = ⟨1, 6, 0⟩ := by
    rw [HSVtoRGB_at_360]; norm_num
  have h0 : HSVtoRGB 0 1 1 = ⟨1, 0, 0⟩ := by
    rw [HSVtoRGB_at_0]; norm_num
  refine ⟨h360, h0, ?_⟩
  rw [h360, h0]
  intro h
  have hy := congrArg Vec3.y h
  norm_num at hy

/-- C2: at full saturation and value, `HSVtoRGB` maps hue 0 to pure red, hue 120 to
pure green and hue 240 to pure blue. -/
theorem HSVtoRGB_primaries :
    HSVtoRGB 0 1 1 = ⟨1, 0, 0⟩ ∧ HSVtoRGB 120 1 1 = ⟨0, 1, 0⟩ ∧
    HSVtoRGB 240 1 1 = ⟨0, 0, 1⟩ := by
  refine ⟨?_, ?_, ?_⟩
  · rw [HSVtoRGB_at_0]; norm_num
  · rw [HSVtoRGB_at_120]; norm_num
  · rw [HSVtoRGB_at_240]; norm_num

/-- C3: after `prepare_particles` (count within the capacity it allocates) and after
`update_particle_buffer` (count within the store), for every generator whose
draws lie in `[0, 5000]`, the uploaded and drawn region has exactly
`desired_snow_count` records and record `i` has `light_id = i mod 3` and
`0 ≤ delay ≤ 5000`. -/
theorem active_region_after_seed_and_resize (s : App) (gen : Gen)
    (hdraws : ∀ k : Nat, 0 ≤ gen.draws k ∧ gen.draws k ≤ 5000) :
    (s.desired_snow_count ≤ max_particle_count →
      ActiveRegion s.desired_snow_count (prepare_particles gen s)) ∧
    (s.desired_snow_count ≤ s.particle_data.length →
      ActiveRegion s.desired_snow_count (update_particle_buffer gen s)) := by
  constructor
  · intro hcap
    obtain ⟨hlen, hget⟩ := prepare_particles_active gen s hcap
    refine ⟨hlen, fun hshow => render_particles_frame _ hshow, ?_⟩
    intro i hi
    obtain ⟨old, _, hs⟩ := hget i hi
    exact ⟨_, hs, seeded_particle_light_id _ _ _, (hdraws _).1, (hdraws _).2⟩
  · intro hcap
    obtain ⟨hlen, hget⟩ := update_particle_buffer_active gen s hcap
    refine ⟨hlen, fun hshow => render_particles_frame _ hshow, ?_⟩
    intro i hi
    exact ⟨_, (hget i hi).2, resized_particle_light_id _ _, (hdraws _).1, (hdraws _).2⟩

/-- Witness for C3: the small state `demo_app` with `demo_gen`. -/
theorem active_region_after_seed_and_resize_witness :
    ActiveRegion 4 (prepare_particles demo_gen demo_app) ∧
    ActiveRegion 4 (update_particle_buffer demo_gen demo_app) :=
  ⟨(active_region_after_seed_and_resize demo_app demo_gen demo_gen_range).1 (by decide),
   (active_region_after_seed_and_resize demo_app demo_gen demo_gen_range).2 (by decide)⟩

/-- C8: after `update_particle_buffer` with a count within the store, whatever the
store held before, record `i` below the count has position `(0,0,0,0)`,
velocity `(0,0,0)`, colour `(1,1,1)`, and its delay and its lifetime both equal
the `i`-th value drawn from the generator in this call. -/
theorem resize_reinitialises_active_region (s : App) (gen : Gen) (i : Nat)
    (hcap : s.desired_snow_count ≤ s.particle_data.length)
    (hi : i < s.desired_snow_count) :
    ∃ p : Particle,
      (update_particle_buffer gen s).particle_data[i]? = some p ∧
      (update_particle_buffer gen s).particle_ssbo[i]? = some p ∧
      p.position = ⟨0, 0, 0, 0⟩ ∧ p.velocity = ⟨0, 0, 0⟩ ∧ p.color = ⟨1, 1, 1⟩ ∧
      p.lifetime = gen.draws (gen.pos + i) ∧ p.delay = gen.draws (gen.pos + i) := by
  obtain ⟨_, hget⟩ := update_particle_buffer_active gen s hcap
  exact ⟨_, (hget i hi).1, (hget i hi).2, rfl, rfl, rfl, rfl, rfl⟩

/-- Witness for C8: record 3 of `demo_app_stale`, which held old values. -/
theorem resize_reinitialises_active_region_witness :
    ∃ p : Particle,
      (update_particle_buffer demo_gen demo_app_stale).particle_data[3]? = some p ∧
      (update_particle_buffer demo_gen demo_app_stale).particle_ssbo[3]? = some p ∧
      p.position = ⟨0, 0, 0, 0⟩ ∧ p.velocity = ⟨0, 0, 0⟩ ∧ p.color = ⟨1, 1, 1⟩ ∧
      p.lifetime = demo_gen.draws (demo_gen.pos + 3) ∧
      p.delay = demo_gen.draws (demo_gen.pos + 3) :=
  resize_reinitialises_active_region demo_app_stale demo_gen 3 (by decide) (by decide)

/-- C10: for two stores and two generators, after `update_particle_buffer` with the
same count (within both stores) record `i` below the count has the same
`light_id` in both runs, and in each run its delay is the `i`-th value drawn in
that run, whatever its delay was before. -/
theorem resize_light_id_deterministic_delay_fresh (s₁ s₂ : App) (gen₁ gen₂ : Gen) (i : Nat)
    (hsame : s₁.desired_snow_count = s₂.desired_snow_count)
    (hcap₁ : s₁.desired_snow_count ≤ s₁.particle_data.length)
    (hcap₂ : s₂.desired_snow_count ≤ s₂.particle_data.length)
    (hi : i < s₁.desired_snow_count) :
    ∃ p₁ p₂ : Particle,
      (update_particle_buffer gen₁ s₁).particle_data[i]? = some p₁ ∧
      (update_particle_buffer gen₂ s₂).particle_data[i]? = some p₂ ∧
      p₁.light_id = p₂.light_id ∧
      p₁.delay = gen₁.draws (gen₁.pos + i) ∧ p₂.delay = gen₂.draws (gen₂.pos + i) := by
  obtain ⟨_, hget₁⟩ := update_particle_buffer_active gen₁ s₁ hcap₁
  obtain ⟨_, hget₂⟩ := update_particle_buffer_active gen₂ s₂ hcap₂
  exact ⟨_, _, (hget₁ i hi).1, (hget₂ i (hsame ▸ hi)).1, rfl, rfl, rfl⟩

/-- Witness for C10: two different stores and two different generators. -/
theorem resize_light_id_deterministic_delay_fresh_witness :
    ∃ p₁ p₂ : Particle,
      (update_particle_buffer demo_gen demo_app).particle_data[3]? = some p₁ ∧
      (update_particle_buffer demo_gen_const demo_app_stale).particle_data[3]? = some p₂ ∧
      p₁.light_id = p₂.light_id ∧
      p₁.delay = demo_gen.draws (demo_gen.pos + 3) ∧
      p₂.delay = demo_gen_const.draws (demo_gen_const.pos + 3) :=
  resize_light_id_deterministic_delay_fresh demo_app demo_app_stale demo_gen demo_gen_const 3
    rfl (by decide) (by decide) (by decide)

/-! ## Frame lemmas for `update` and the render functions -/

theorem update_lights (env : Env) (delta : ℚ) (s : App) :
    (update env delta s).phong_lights_ubo =
      (List.range 3).map (fun i : Nat =>
        (⟨position_at (light_positions env (env.base_update s.elapsed_time delta * (1 / 1000))) i,
          Vec3.splat 0,
          HSVtoRGB (float_narrow (fract (env.base_update s.elapsed_time delta * (1 / 1000)
            * (1 / 10) + (33 / 100) * i)) * 360) 1 (8 / 10),
          Vec3.splat (1 / 10), 1, 0, 0⟩ : PhongLightData)) := rfl

theorem update_radius (env : Env) (delta : ℚ) (s : App) :
    (update env delta s).sphere_light_radius = s.sphere_light_radius := rfl

theorem update_spheres (env : Env) (delta : ℚ) (s : App) :
    (update env delta s).snowman.spheres =
      arraySet (arraySet (arraySet s.snowman.spheres
        (0 + snowman_size) (Vec4.ofVec3 (position_at (light_positions env
          (env.base_update s.elapsed_time delta * (1 / 1000))) 0) s.sphere_light_radius))
        (1 + snowman_size) (Vec4.ofVec3 (position_at (light_positions env
          (env.base_update s.elapsed_time delta * (1 / 1000))) 1) s.sphere_light_radius))
        (2 + snowman_size) (Vec4.ofVec3 (position_at (light_positions env
          (env.base_update s.elapsed_time delta * (1 / 1000))) 2) s.sphere_light_radius) := rfl

theorem update_ubo (env : Env) (delta : ℚ) (s : App) :
    (update env delta s).snowman_ubo = (update env delta s).snowman := rfl

theorem update_particles (env : Env) (delta : ℚ) (s : App) :
    (update env delta s).desired_snow_count = s.desired_snow_count ∧
    (update env delta s).particle_data = s.particle_data ∧
    (update env delta s).particle_ssbo = s.particle_ssbo := ⟨rfl, rfl, rfl⟩

theorem ray_trace_snowman_snowman (s : App) : (ray_trace_snowman s).snowman = s.snowman := rfl

theorem raster_snowman_snowman (s : App) : (raster_snowman s).snowman = s.snowman := rfl

theorem render_particles_snowman (s : App) : (render_particles s).snowman = s.snowman := by
  cases h : s.show_particles <;> simp [render_particles, h]

theorem render_snowman (t : Nat) (s : App) : (render t s).snowman = s.snowman := by
  show (render_particles (if s.use_ray_tracing = true
    then ray_trace_snowman { s with frame := [], depth_test := true }
    else raster_snowman { s with frame := [], depth_test := true })).snowman = s.snowman
  rw [render_particles_snowman]
  split <;> rfl

theorem render_particles_keeps (s : App) :
    (render_particles s).desired_snow_count = s.desired_snow_count ∧
    (render_particles s).particle_data = s.particle_data ∧
    (render_particles s).particle_ssbo = s.particle_ssbo ∧
    (render_particles s).sphere_light_radius = s.sphere_light_radius := by
  cases h : s.show_particles <;> simp [render_particles, h]

theorem render_particles_fields (t : Nat) (s : App) :
    (render t s).desired_snow_count = s.desired_snow_count ∧
    (render t s).particle_data = s.particle_data ∧
    (render t s).particle_ssbo = s.particle_ssbo ∧
    (render t s).sphere_light_radius = s.sphere_light_radius := by
  have h := render_particles_keeps (if s.use_ray_tracing = true
    then ray_trace_snowman { s with frame := [], depth_test := true }
    else raster_snowman { s with frame := [], depth_test := true })
  have e1 : (render t s).desired_snow_count = (render_particles (if s.use_ray_tracing = true
    then ray_trace_snowman { s with frame := [], depth_test := true }
    else raster_snowman { s with frame := [], depth_test := true })).desired_snow_count := rfl
  have e2 : (render t s).particle_data = (render_particles (if s.use_ray_tracing = true
    then ray_trace_snowman { s with frame := [], depth_test := true }
    else raster_snowman { s with frame := [], depth_test := true })).particle_data := rfl
  have e3 : (render t s).particle_ssbo = (render_particles (if s.use_ray_tracing = true
    then ray_trace_snowman { s with frame := [], depth_test := true }
    else raster_snowman { s with frame := [], depth_test := true })).particle_ssbo := rfl
  have e4 : (render t s).sphere_light_radius = (render_particles (if s.use_ray_tracing = true
    then ray_trace_snowman { s with frame := [], depth_test := true }
    else raster_snowman { s with frame := [], depth_test := true })).sphere_light_radius := rfl
  rw [e1, e2, e3, e4, h.1, h.2.1, h.2.2.1, h.2.2.2]
  split <;> exact ⟨rfl, rfl, rfl, rfl⟩

/-! ## The settings panel -/

theorem pow2_int_combo (k : Fin 10) : pow2_int ((k.val : Int) + 8) = 2 ^ (k.val + 8) := by
  unfold pow2_int
  rw [if_pos (by omega)]
  congr 1

theorem combo_count_le (k : Fin 10) : 2 ^ (k.val + 8) ≤ max_particle_count := by
  have h : k.val + 8 ≤ 17 := by omega
  calc 2 ^ (k.val + 8) ≤ 2 ^ 17 := Nat.pow_le_pow_right (by norm_num) h
    _ = max_particle_count := by norm_num [max_particle_count]

theorem combo_count_ge (k : Fin 10) : 256 ≤ 2 ^ (k.val + 8) := by
  calc 256 = 2 ^ 8 := by norm_num
    _ ≤ 2 ^ (k.val + 8) := Nat.pow_le_pow_right (by norm_num) (by omega)

/-- The part of `render_ui` after the particle-count combo. -/
theorem render_ui_tail_keeps (inp : UIInput) (s : App) :
    (render_ui inp s).snowman = s.snowman ∧
    (render_ui inp s).current_snow_count = s.desired_snow_count := by
  cases hc : inp.particle_count <;>
  simp only [render_ui, ImGui_Combo, hc, Bool.false_eq_true, if_false, if_true] <;>
  split <;> exact ⟨rfl, rfl⟩

theorem render_ui_no_pick (inp : UIInput) (s : App) (h : inp.particle_count = none) :
    (render_ui inp s).desired_snow_count = s.desired_snow_count ∧
    (render_ui inp s).particle_data = s.particle_data ∧
    (render_ui inp s).particle_ssbo = s.particle_ssbo ∧
    (render_ui inp s).ssbo_uploads = s.ssbo_uploads := by
  simp only [render_ui, ImGui_Combo, h, Bool.false_eq_true, if_false]
  split <;> exact ⟨rfl, rfl, rfl, rfl⟩

theorem render_ui_pick (inp : UIInput) (s : App) (k : Fin 10)
    (h : inp.particle_count = some k) :
    (render_ui inp s).desired_snow_count = 2 ^ (k.val + 8) ∧
    (render_ui inp s).particle_data =
      (update_particle_buffer inp.draws
        { s with desired_snow_count := 2 ^ (k.val + 8) }).particle_data ∧
    (render_ui inp s).particle_ssbo =
      (update_particle_buffer inp.draws
        { s with desired_snow_count := 2 ^ (k.val + 8) }).particle_ssbo ∧
    (render_ui inp s).ssbo_uploads = s.ssbo_uploads ++ [2 ^ (k.val + 8)] := by
  simp only [render_ui, ImGui_Combo, h, pow2_int_combo, if_true]
  split <;> exact ⟨rfl, rfl, rfl, rfl⟩

/-! ## Invariants of the reachable states -/

theorem construct_particles (gen : Gen) (s : App) :
    (construct gen s).desired_snow_count = s.desired_snow_count ∧
    (construct gen s).particle_data =
      (prepare_particles gen (prepare_lights (prepare_snowman (prepare_materials s)))).particle_data ∧
    (construct gen s).particle_ssbo =
      (prepare_particles gen (prepare_lights (prepare_snowman (prepare_materials s)))).particle_ssbo :=
  ⟨rfl, rfl, rfl⟩

theorem countInvariant_start (snowman0 : Snowman) (material0 : PhongMaterialData) (gen : Gen) :
    CountInvariant (construct gen (App.fresh snowman0 material0)) := by
  have hd : (prepare_lights (prepare_snowman (prepare_materials
      (App.fresh snowman0 material0)))).desired_snow_count = 4096 := rfl
  have hcap : (prepare_lights (prepare_snowman (prepare_materials
      (App.fresh snowman0 material0)))).desired_snow_count ≤ max_particle_count := by
    rw [hd]
    norm_num [max_particle_count]
  obtain ⟨hlen, _⟩ := prepare_particles_data gen _ hcap
  obtain ⟨_, hget⟩ := prepare_particles_active gen _ hcap
  obtain ⟨e1, e2, e3⟩ := construct_particles gen (App.fresh snowman0 material0)
  have e0 : (App.fresh snowman0 material0).desired_snow_count = 4096 := rfl
  unfold CountInvariant
  rw [e1, e2, e3, e0]
  refine ⟨⟨⟨4, by norm_num⟩, by norm_num⟩, hlen, ?_⟩
  intro i hi
  rw [← hd] at hi
  obtain ⟨old, h1, h2⟩ := hget i hi
  exact ⟨_, h1, h2, seeded_particle_light_id _ _ _⟩

theorem countInvariant_render_ui (inp : UIInput) (s : App) (h : CountInvariant s) :
    CountInvariant (render_ui inp s) := by
  obtain ⟨hk, hlen, hget⟩ := h
  cases hc : inp.particle_count with
  | none =>
    obtain ⟨e1, e2, e3, _⟩ := render_ui_no_pick inp s hc
    refine ⟨?_, ?_, ?_⟩
    · rw [e1]; exact hk
    · rw [e2]; exact hlen
    · rw [e1, e2, e3]; exact hget
  | some k =>
    obtain ⟨e1, e2, e3, _⟩ := render_ui_pick inp s k hc
    have hcap : ({ s with desired_snow_count := 2 ^ (k.val + 8) } : App).desired_snow_count ≤
        ({ s with desired_snow_count := 2 ^ (k.val + 8) } : App).particle_data.length := by
      show 2 ^ (k.val + 8) ≤ s.particle_data.length
      rw [hlen]; exact combo_count_le k
    obtain ⟨hlen', _⟩ := update_particle_buffer_data inp.draws _ hcap
    obtain ⟨_, hact⟩ := update_particle_buffer_active inp.draws _ hcap
    refine ⟨⟨k, e1⟩, ?_, ?_⟩
    · rw [e2, hlen']; exact hlen
    · intro i hi
      rw [e1] at hi
      rw [e2, e3]
      exact ⟨_, (hact i hi).1, (hact i hi).2, resized_particle_light_id _ _⟩

theorem countInvariant_reachable (s : App) (h : Reachable s) : CountInvariant s := by
  induction h with
  | start snowman0 material0 gen => exact countInvariant_start snowman0 material0 gen
  | update env delta s _ ih =>
    obtain ⟨e1, e2, e3⟩ := update_particles env delta s
    unfold CountInvariant
    rw [e1, e2, e3]
    exact ih
  | render t s _ ih =>
    obtain ⟨e1, e2, e3, _⟩ := render_particles_fields t s
    unfold CountInvariant
    rw [e1, e2, e3]
    exact ih
  | render_ui inp s _ ih => exact countInvariant_render_ui inp s ih

theorem arraySet_of_ne {α : Type} {n : Nat} (a : Fin n → α) (i : Nat) (v : α) (j : Fin n)
    (h : j.val ≠ i) : arraySet a i v j = a j := by
  simp [arraySet, h]

theorem arraySet_of_eq {α : Type} {n : Nat} (a : Fin n → α) (i : Nat) (v : α) (j : Fin n)
    (h : j.val = i) : arraySet a i v j = v := by
  simp [arraySet, h]

theorem prepare_snowman_body (s : App) (j : Fin (snowman_size + light_count))
    (hj : j.val < snowman_size) : (prepare_snowman s).snowman.spheres j = body_sphere j.val := by
  obtain ⟨j, hlt⟩ := j
  simp only [snowman_size] at hj
  simp only [prepare_snowman, arraySet]
  interval_cases j <;> simp [body_sphere]

theorem prepare_snowman_markers (s : App) (j : Fin (snowman_size + light_count))
    (hj : snowman_size ≤ j.val) : (prepare_snowman s).snowman.spheres j = s.snowman.spheres j := by
  simp only [snowman_size] at hj
  simp only [prepare_snowman, arraySet]
  have h : ∀ m : Nat, m < 10 → ¬ (j.val = m) := fun m hm => by omega
  simp [h]

theorem body_sphere_radius_pos (j : Nat) : 0 < (body_sphere j).w := by
  unfold body_sphere
  split <;> norm_num

theorem update_body_spheres (env : Env) (delta : ℚ) (s : App)
    (j : Fin (snowman_size + light_count)) (hj : j.val < snowman_size) :
    (update env delta s).snowman.spheres j = s.snowman.spheres j := by
  rw [update_spheres]
  simp only [snowman_size] at hj ⊢
  rw [arraySet_of_ne _ _ _ _ (by omega), arraySet_of_ne _ _ _ _ (by omega),
    arraySet_of_ne _ _ _ _ (by omega)]

theorem update_marker_spheres (env : Env) (delta : ℚ) (s : App) (i : Fin light_count) :
    (update env delta s).snowman.spheres (Fin.natAdd snowman_size i) =
      Vec4.ofVec3 (position_at (light_positions env
        (env.base_update s.elapsed_time delta * (1 / 1000))) i.val) s.sphere_light_radius := by
  rw [update_spheres]
  obtain ⟨i, hi⟩ := i
  simp only [light_count] at hi
  interval_cases i
  · rw [arraySet_of_ne _ _ _ _ (by simp [snowman_size, Fin.natAdd]),
      arraySet_of_ne _ _ _ _ (by simp [snowman_size, Fin.natAdd]),
      arraySet_of_eq _ _ _ _ (by simp [snowman_size, Fin.natAdd])]
  · rw [arraySet_of_ne _ _ _ _ (by simp [snowman_size, Fin.natAdd]),
      arraySet_of_eq _ _ _ _ (by simp [snowman_size, Fin.natAdd])]
  · rw [arraySet_of_eq _ _ _ _ (by simp [snowman_size, Fin.natAdd])]

/-- In every reachable state the ten body spheres are those of `prepare_snowman`. -/
theorem body_spheres_reachable (s : App) (h : Reachable s)
    (j : Fin (snowman_size + light_count)) (hj : j.val < snowman_size) :
    s.snowman.spheres j = body_sphere j.val := by
  induction h with
  | start snowman0 material0 gen =>
    exact prepare_snowman_body (prepare_materials (App.fresh snowman0 material0)) j hj
  | update env delta s _ ih => rw [update_body_spheres env delta s j hj]; exact ih
  | render t s _ ih => rw [render_snowman]; exact ih
  | render_ui inp s _ ih => rw [(render_ui_tail_keeps inp s).1]; exact ih

theorem render_ui_radius (inp : UIInput) (s : App) :
    (render_ui inp s).sphere_light_radius =
      ImGui_Slider s.sphere_light_radius 0 1 inp.sphere_light_radius := by
  cases hc : inp.particle_count <;>
  simp only [render_ui, ImGui_Combo, hc, Bool.false_eq_true, if_false, if_true] <;>
  split <;> rfl

theorem update_materials (env : Env) (delta : ℚ) (s : App) :
    (update env delta s).snowman.materials =
      arraySet (arraySet (arraySet s.snowman.materials
        (0 + snowman_size)
          ⟨(get_light (update env delta s).phong_lights_ubo 0).diffuse, Vec3.splat 0, 0⟩)
        (1 + snowman_size)
          ⟨(get_light (update env delta s).phong_lights_ubo 1).diffuse, Vec3.splat 0, 0⟩)
        (2 + snowman_size)
          ⟨(get_light (update env delta s).phong_lights_ubo 2).diffuse, Vec3.splat 0, 0⟩ := rfl

theorem Snowman.eq_of_fields (a b : Snowman) (h₁ : a.spheres = b.spheres)
    (h₂ : a.materials = b.materials) : a = b := by
  cases a
  cases b
  simp_all

/-- The snowman after `update` depends only on the snowman, the elapsed time and
the light radius before. -/
theorem update_snowman_congr (env : Env) (delta : ℚ) (s t : App)
    (h₁ : s.snowman = t.snowman) (h₂ : s.elapsed_time = t.elapsed_time)
    (h₃ : s.sphere_light_radius = t.sphere_light_radius) :
    (update env delta s).snowman = (update env delta t).snowman := by
  apply Snowman.eq_of_fields
  · rw [update_spheres, update_spheres, h₁, h₂, h₃]
  · rw [update_materials, update_materials, update_lights, update_lights, h₁, h₂]

theorem demo_start_reachable : Reachable demo_start :=
  Reachable.start demo_snowman demo_material demo_gen

/-- C4: after `update`, for each light `i`, the sphere at index `snowman_size + i`,
in the snowman and in its uploaded copy, has as centre the position of light `i`
in the light buffer that this `update` filled, and as radius the current
`sphere_light_radius`, which `update` does not change. -/
theorem light_markers_follow_lights (env : Env) (delta : ℚ) (s : App) (i : Fin light_count) :
    ∃ light : PhongLightData,
      (update env delta s).phong_lights_ubo[i.val]? = some light ∧
      light.position =
        position_at (light_positions env ((update env delta s).elapsed_time * (1 / 1000))) i.val ∧
      ((update env delta s).snowman.spheres (Fin.natAdd snowman_size i)).xyz = light.position ∧
      ((update env delta s).snowman.spheres (Fin.natAdd snowman_size i)).w =
        (update env delta s).sphere_light_radius ∧
      (update env delta s).snowman_ubo.spheres (Fin.natAdd snowman_size i) =
        (update env delta s).snowman.spheres (Fin.natAdd snowman_size i) ∧
      (update env delta s).sphere_light_radius = s.sphere_light_radius := by
  have hs := update_marker_spheres env delta s i
  have hl := update_lights env delta s
  obtain ⟨i, hi⟩ := i
  simp only [light_count] at hi
  interval_cases i <;>
  exact ⟨_, by rw [hl]; rfl, rfl, by rw [hs]; rfl, by rw [hs]; rfl, rfl, rfl⟩

/-- C5 (counterexample): with the slider at its lower bound, `sphere_light_radius = 0`
(a reachable state, and a value in `[0, 1]`), the sphere of light 0 has radius
`0` after `update`, so not every entry of `snowman.spheres` is strictly positive. -/
theorem light_marker_radius_zero :
    Reachable (render_ui { UIInput.idle demo_gen with sphere_light_radius := some 0 } demo_start) ∧
    (render_ui { UIInput.idle demo_gen with sphere_light_radius := some 0 }
      demo_start).sphere_light_radius = 0 ∧
    ((update demo_env 16 (render_ui { UIInput.idle demo_gen with sphere_light_radius := some 0 }
      demo_start)).snowman.spheres (Fin.natAdd snowman_size light0)).w = 0 ∧
    ¬ ∀ j : Fin (snowman_size + light_count),
      0 < ((update demo_env 16 (render_ui
        { UIInput.idle demo_gen with sphere_light_radius := some 0 }
        demo_start)).snowman.spheres j).w := by
  have hr : (render_ui { UIInput.idle demo_gen with sphere_light_radius := some 0 }
      demo_start).sphere_light_radius = 0 := by
    rw [render_ui_radius]
    simp [ImGui_Slider, UIInput.idle]
  have hw : ((update demo_env 16 (render_ui
      { UIInput.idle demo_gen with sphere_light_radius := some 0 }
      demo_start)).snowman.spheres (Fin.natAdd snowman_size light0)).w = 0 := by
    rw [update_marker_spheres]
    exact hr
  refine ⟨Reachable.render_ui _ _ demo_start_reachable, hr, hw, ?_⟩
  intro h
  have := h (Fin.natAdd snowman_size light0)
  rw [hw] at this
  exact lt_irrefl _ this

/-- C5 (amended): `prepare_snowman` gives the ten body spheres a strictly positive
radius; in every reachable state, after `update` the body spheres are still
strictly positive, each light-marker sphere has radius exactly
`sphere_light_radius`, and so all 13 entries are strictly positive whenever
`sphere_light_radius > 0`. -/
theorem sphere_radii_positive (s₀ s : App) (hs : Reachable s) (env : Env) (delta : ℚ) :
    (∀ j : Fin (snowman_size + light_count), j.val < snowman_size →
      0 < ((prepare_snowman s₀).snowman.spheres j).w) ∧
    (∀ j : Fin (snowman_size + light_count), j.val < snowman_size →
      0 < ((update env delta s).snowman.spheres j).w) ∧
    (∀ i : Fin light_count,
      ((update env delta s).snowman.spheres (Fin.natAdd snowman_size i)).w =
        s.sphere_light_radius) ∧
    (0 < s.sphere_light_radius →
      ∀ j : Fin (snowman_size + light_count), 0 < ((update env delta s).snowman.spheres j).w) := by
  have hbody : ∀ j : Fin (snowman_size + light_count), j.val < snowman_size →
      0 < ((update env delta s).snowman.spheres j).w := by
    intro j hj
    rw [update_body_spheres env delta s j hj, body_spheres_reachable s hs j hj]
    exact body_sphere_radius_pos _
  have hmark : ∀ i : Fin light_count,
      ((update env delta s).snowman.spheres (Fin.natAdd snowman_size i)).w =
        s.sphere_light_radius := by
    intro i
    rw [update_marker_spheres]
    rfl
  refine ⟨?_, hbody, hmark, ?_⟩
  · intro j hj
    rw [prepare_snowman_body s₀ j hj]
    exact body_sphere_radius_pos _
  · intro hpos j
    by_cases hj : j.val < snowman_size
    · exact hbody j hj
    · have hlt : j.val - snowman_size < light_count := by
        have := j.isLt
        omega
      have hj' : j = Fin.natAdd snowman_size ⟨j.val - snowman_size, hlt⟩ := by
        apply Fin.ext
        simp only [Fin.natAdd]
        omega
      rw [hj', hmark]
      exact hpos

/-- Witness for C5 (amended): the constructed application, radius 1/2. -/
theorem sphere_radii_positive_witness :
    Reachable demo_start ∧ 0 < demo_start.sphere_light_radius ∧
    ∀ j : Fin (snowman_size + light_count),
      0 < ((update demo_env 16 demo_start).snowman.spheres j).w :=
  have hpos : 0 < demo_start.sphere_light_radius := by
    show (0 : ℚ) < 1 / 2
    norm_num
  ⟨demo_start_reachable, hpos,
    (sphere_radii_positive demo_start demo_start demo_start_reachable demo_env 16).2.2.2 hpos⟩

/-- C7: in every reachable state `desired_snow_count` is a power of two between
256 and `max_particle_count = 131072`, the store has length
`max_particle_count`, so every index below the count lies inside the store, and
every record below the count, in the store and in the device buffer, has
`light_id` 0, 1 or 2. -/
theorem reachable_count_within_capacity (s : App) (hs : Reachable s) :
    (∃ e : Nat, s.desired_snow_count = 2 ^ e) ∧
    256 ≤ s.desired_snow_count ∧ s.desired_snow_count ≤ max_particle_count ∧
    max_particle_count = 131072 ∧
    s.particle_data.length = max_particle_count ∧
    (∀ i : Nat, i < s.desired_snow_count → i < s.particle_data.length) ∧
    ∀ i : Nat, i < s.desired_snow_count → ∃ p : Particle,
      s.particle_data[i]? = some p ∧ s.particle_ssbo[i]? = some p ∧
      (p.light_id = 0 ∨ p.light_id = 1 ∨ p.light_id = 2) := by
  obtain ⟨⟨k, hk⟩, hlen, hget⟩ := countInvariant_reachable s hs
  have hle : s.desired_snow_count ≤ max_particle_count := by
    rw [hk]; exact combo_count_le k
  refine ⟨⟨k.val + 8, hk⟩, by rw [hk]; exact combo_count_ge k, hle, rfl, hlen, ?_, ?_⟩
  · intro i hi
    rw [hlen]
    omega
  · intro i hi
    obtain ⟨p, h1, h2, h3⟩ := hget i hi
    refine ⟨p, h1, h2, ?_⟩
    rw [h3]
    omega

/-- Witness for C7: the state after picking the largest count, 131072. -/
theorem reachable_count_within_capacity_witness :
    Reachable (render_ui (UIInput.pick 9 demo_gen) demo_start) ∧
    (render_ui (UIInput.pick 9 demo_gen) demo_start).desired_snow_count ≤ max_particle_count ∧
    (render_ui (UIInput.pick 9 demo_gen) demo_start).particle_data.length = max_particle_count :=
  have hr : Reachable (render_ui (UIInput.pick 9 demo_gen) demo_start) :=
    Reachable.render_ui _ _ demo_start_reachable
  ⟨hr, (reachable_count_within_capacity _ hr).2.2.1,
    (reachable_count_within_capacity _ hr).2.2.2.2.1⟩

/-- C9: `render`, `ray_trace_snowman` and `raster_snowman` leave the snowman (its
spheres and its materials) as it is, `render_ui`, where the toggle lives, does
too, and the snowman after `update` and after `update` then `render` is the
same for both values of `use_ray_tracing`. -/
theorem ray_tracing_toggle_keeps_scene (env : Env) (delta : ℚ) (t : Nat) (inp : UIInput)
    (s : App) :
    (render t s).snowman = s.snowman ∧
    (ray_trace_snowman s).snowman = s.snowman ∧
    (raster_snowman s).snowman = s.snowman ∧
    (render_ui inp s).snowman = s.snowman ∧
    (update env delta { s with use_ray_tracing := true }).snowman =
      (update env delta { s with use_ray_tracing := false }).snowman ∧
    (update env delta { s with use_ray_tracing := true }).snowman_ubo =
      (update env delta { s with use_ray_tracing := false }).snowman_ubo ∧
    (render t (update env delta { s with use_ray_tracing := true })).snowman =
      (render t (update env delta { s with use_ray_tracing := false })).snowman := by
  have hu : (update env delta { s with use_ray_tracing := true }).snowman =
      (update env delta { s with use_ray_tracing := false }).snowman :=
    update_snowman_congr env delta _ _ rfl rfl rfl
  refine ⟨render_snowman t s, rfl, rfl, (render_ui_tail_keeps inp s).1, hu, ?_, ?_⟩
  · rw [update_ubo, update_ubo, hu]
  · rw [render_snowman, render_snowman, hu]

/-! ## The snowman body -/

theorem prepare_materials_body (s : App) (j : Fin (snowman_size + light_count))
    (hj : j.val < snowman_size) :
    (prepare_materials s).snowman.materials j = body_material j.val := by
  obtain ⟨j, hlt⟩ := j
  simp only [snowman_size] at hj
  simp only [prepare_materials, arraySet]
  interval_cases j <;> simp [body_material]

theorem update_body_materials (env : Env) (delta : ℚ) (s : App)
    (j : Fin (snowman_size + light_count)) (hj : j.val < snowman_size) :
    (update env delta s).snowman.materials j = s.snowman.materials j := by
  rw [update_materials]
  simp only [snowman_size] at hj ⊢
  rw [arraySet_of_ne _ _ _ _ (by omega), arraySet_of_ne _ _ _ _ (by omega),
    arraySet_of_ne _ _ _ _ (by omega)]

theorem construct_materials (gen : Gen) (s : App) :
    (construct gen s).snowman.materials = (prepare_materials s).snowman.materials := rfl

/-- In every reachable state the ten body materials are those of `prepare_materials`. -/
theorem body_materials_reachable (s : App) (h : Reachable s)
    (j : Fin (snowman_size + light_count)) (hj : j.val < snowman_size) :
    s.snowman.materials j = body_material j.val := by
  induction h with
  | start snowman0 material0 gen =>
    rw [construct_materials]
    exact prepare_materials_body (App.fresh snowman0 material0) j hj
  | update env delta s _ ih => rw [update_body_materials env delta s j hj]; exact ih
  | render t s _ ih => rw [render_snowman]; exact ih
  | render_ui inp s _ ih => rw [(render_ui_tail_keeps inp s).1]; exact ih

/-- C11: `update` leaves the first `snowman_size` spheres and materials of any state
as they are (of the 13 entries only indices 10..12 are written), and in every
reachable state these entries, before and after `update`, are the values that
`prepare_snowman` and `prepare_materials` set at start-up. -/
theorem update_keeps_snowman_body (s₀ s : App) (hs : Reachable s) (env : Env) (delta : ℚ)
    (j : Fin (snowman_size + light_count)) (hj : j.val < snowman_size) :
    (update env delta s₀).snowman.spheres j = s₀.snowman.spheres j ∧
    (update env delta s₀).snowman.materials j = s₀.snowman.materials j ∧
    (prepare_snowman s₀).snowman.spheres j = body_sphere j.val ∧
    (prepare_materials s₀).snowman.materials j = body_material j.val ∧
    (update env delta s).snowman.spheres j = body_sphere j.val ∧
    (update env delta s).snowman.materials j = body_material j.val := by
  refine ⟨update_body_spheres env delta s₀ j hj, update_body_materials env delta s₀ j hj,
    prepare_snowman_body s₀ j hj, prepare_materials_body s₀ j hj, ?_, ?_⟩
  · rw [update_body_spheres env delta s j hj]
    exact body_spheres_reachable s hs j hj
  · rw [update_body_materials env delta s j hj]
    exact body_materials_reachable s hs j hj

/-- Witness for C11: the left-hand sphere (index 4) after one `update` of the
constructed application. -/
theorem update_keeps_snowman_body_witness :
    Reachable demo_start ∧
    (update demo_env 16 demo_start).snowman.spheres ⟨4, by decide⟩ = body_sphere 4 ∧
    (update demo_env 16 demo_start).snowman.materials ⟨4, by decide⟩ = body_material 4 :=
  have h := update_keeps_snowman_body demo_start demo_start demo_start_reachable demo_env 16
    ⟨4, by decide⟩ (by decide)
  ⟨demo_start_reachable, h.2.2.2.2.1, h.2.2.2.2.2⟩

/-! ## The range of `HSVtoRGB` -/

theorem fract_range (q : ℚ) : 0 ≤ fract q ∧ fract q < 1 := by
  unfold fract
  have h1 := Int.floor_le q
  have h2 := Int.lt_floor_add_one q
  constructor <;> linarith

/-- On the hue range `[0, 360)` the code takes one of its six sector branches, with
a fraction `f` in `[0, 1)`. -/
theorem HSVtoRGB_sector (h s v : ℚ) (h0 : 0 ≤ h) (h360 : h < 360) :
    ∃ f : ℚ, 0 ≤ f ∧ f < 1 ∧
      (HSVtoRGB h s v = ⟨v, v * (1 - (1 - f) * s), v * (1 - s)⟩ ∨
       HSVtoRGB h s v = ⟨v * (1 - f * s), v, v * (1 - s)⟩ ∨
       HSVtoRGB h s v = ⟨v * (1 - s), v, v * (1 - (1 - f) * s)⟩ ∨
       HSVtoRGB h s v = ⟨v * (1 - s), v * (1 - f * s), v⟩ ∨
       HSVtoRGB h s v = ⟨v * (1 - (1 - f) * s), v * (1 - s), v⟩ ∨
       HSVtoRGB h s v = ⟨v, v * (1 - s), v * (1 - f * s)⟩) := by
  have hq0 : (0 : ℚ) ≤ h / 60 := by positivity
  have hq6 : h / 60 < 6 := by linarith
  have htr : truncToInt (h / 60) = ⌊h / 60⌋ := by
    unfold truncToInt
    rw [if_pos hq0]
  have hk0 : 0 ≤ ⌊h / 60⌋ := Int.floor_nonneg.mpr hq0
  have hk6 : ⌊h / 60⌋ < 6 := Int.floor_lt.mpr (by exact_mod_cast hq6)
  have hf0 := Int.floor_le (h / 60)
  have hf1 := Int.lt_floor_add_one (h / 60)
  refine ⟨h / 60 - ⌊h / 60⌋, by linarith, by linarith, ?_⟩
  generalize hk : ⌊h / 60⌋ = k at hk0 hk6 htr ⊢
  have e0 : Int.tmod 0 6 = 0 := by decide
  have e1 : Int.tmod 1 6 = 1 := by decide
  have e2 : Int.tmod 2 6 = 2 := by decide
  have e3 : Int.tmod 3 6 = 3 := by decide
  have e4 : Int.tmod 4 6 = 4 := by decide
  have e5 : Int.tmod 5 6 = 5 := by decide
  interval_cases k
  · left
    simp only [HSVtoRGB, htr, e0]
  · right; left
    simp only [HSVtoRGB, htr, e1]
  · right; right; left
    simp only [HSVtoRGB, htr, e2]
  · right; right; right; left
    simp only [HSVtoRGB, htr, e3]
  · right; right; right; right; left
    simp only [HSVtoRGB, htr, e4]
  · right; right; right; right; right
    simp only [HSVtoRGB, htr, e5]

/-- The three bounds that every branch of `HSVtoRGB` rests on. -/
theorem hsv_terms_bounds (f s v : ℚ) (hf0 : 0 ≤ f) (hf1 : f < 1) (hs0 : 0 ≤ s) (hv0 : 0 ≤ v) :
    v * (1 - s) ≤ v ∧
    (v * (1 - s) ≤ v * (1 - f * s) ∧ v * (1 - f * s) ≤ v) ∧
    (v * (1 - s) ≤ v * (1 - (1 - f) * s) ∧ v * (1 - (1 - f) * s) ≤ v) := by
  have hvs : 0 ≤ v * s := mul_nonneg hv0 hs0
  have h1 : 0 ≤ v * s * f := mul_nonneg hvs hf0
  have h2 : 0 ≤ v * s * (1 - f) := mul_nonneg hvs (by linarith)
  refine ⟨by nlinarith, ⟨by nlinarith, by nlinarith⟩, ⟨by nlinarith, by nlinarith⟩⟩

/-- For a hue in `[0, 360)` and `0 ≤ s`, `0 ≤ v` (in particular for saturation and
value in `[0, 1]`), every component of `HSVtoRGB h s v` lies in `[v*(1-s), v]`,
the largest component is `v` and the smallest is `v*(1-s)`. -/
theorem HSVtoRGB_in_colour_cube (h s v : ℚ) (h0 : 0 ≤ h) (h360 : h < 360)
    (hs0 : 0 ≤ s) (hv0 : 0 ≤ v) :
    (v * (1 - s) ≤ (HSVtoRGB h s v).x ∧ (HSVtoRGB h s v).x ≤ v) ∧
    (v * (1 - s) ≤ (HSVtoRGB h s v).y ∧ (HSVtoRGB h s v).y ≤ v) ∧
    (v * (1 - s) ≤ (HSVtoRGB h s v).z ∧ (HSVtoRGB h s v).z ≤ v) ∧
    max (max (HSVtoRGB h s v).x (HSVtoRGB h s v).y) (HSVtoRGB h s v).z = v ∧
    min (min (HSVtoRGB h s v).x (HSVtoRGB h s v).y) (HSVtoRGB h s v).z = v * (1 - s) := by
  obtain ⟨f, hf0, hf1, hcase⟩ := HSVtoRGB_sector h s v h0 h360
  obtain ⟨hp, ⟨hq1, hq2⟩, ⟨ht1, ht2⟩⟩ := hsv_terms_bounds f s v hf0 hf1 hs0 hv0
  rcases hcase with e | e | e | e | e | e <;> rw [e] <;>
  simp only [max_eq_left, max_eq_right, min_eq_left, min_eq_right, le_refl, and_self, hp, hq1,
    hq2, ht1, ht2, true_and, and_true, le_trans hp le_rfl, min_eq_left hp, min_eq_right hp]

/-- An instance of `HSVtoRGB_in_colour_cube`: hue 200 at saturation 1/2 and value
8/10. -/
theorem HSVtoRGB_in_colour_cube_witness :
    ((0 : ℚ) ≤ 200 ∧ (200 : ℚ) < 360) ∧
    max (max (HSVtoRGB 200 (1 / 2) (8 / 10)).x (HSVtoRGB 200 (1 / 2) (8 / 10)).y)
      (HSVtoRGB 200 (1 / 2) (8 / 10)).z = 8 / 10 ∧
    min (min (HSVtoRGB 200 (1 / 2) (8 / 10)).x (HSVtoRGB 200 (1 / 2) (8 / 10)).y)
      (HSVtoRGB 200 (1 / 2) (8 / 10)).z = 8 / 10 * (1 - 1 / 2) :=
  have h := HSVtoRGB_in_colour_cube 200 (1 / 2) (8 / 10) (by norm_num) (by norm_num)
    (by norm_num) (by norm_num)
  ⟨⟨by norm_num, by norm_num⟩, h.2.2.2.1, h.2.2.2.2⟩

/-! ## The ray/sphere intersection -/

/-- C12: in the intersection modelled from the spec, for a sphere of radius `r > 0`
centred at the origin and a ray that starts at distance `L > r` from the origin
and runs along the unit direction `d` through the centre, the returned hit
distance is `L - r`, for the single sphere and for the scene that holds only
it; the square root is exact on squares and the near-zero tolerance does not
exceed the discriminant `(2r)^2`. -/
theorem ray_through_centre_hit_distance (sqrt : ℚ → ℚ) (eps : ℚ) (d : Vec3) (L r : ℚ)
    (hsqrt : ∀ x : ℚ, 0 ≤ x → sqrt (x * x) = x) (hd : Vec3.dot d d = 1)
    (hr : 0 < r) (hL : r < L) (heps : eps ≤ (2 * r) * (2 * r)) :
    Vec3.dot (Vec3.scale (-L) d) (Vec3.scale (-L) d) = L * L ∧
    intersect_sphere sqrt eps (Vec3.scale (-L) d) d ⟨0, 0, 0, r⟩ = some (L - r) ∧
    closest_hit sqrt eps (Vec3.scale (-L) d) d [⟨0, 0, 0, r⟩] = some (0, L - r) := by
  have hoo : Vec3.dot (Vec3.scale (-L) d) (Vec3.scale (-L) d) = L * L := by
    have : Vec3.dot (Vec3.scale (-L) d) (Vec3.scale (-L) d) = L * L * Vec3.dot d d := by
      simp only [Vec3.dot, Vec3.scale]; ring
    rw [this, hd, mul_one]
  have hod : Vec3.dot (Vec3.scale (-L) d) d = -L := by
    have : Vec3.dot (Vec3.scale (-L) d) d = -L * Vec3.dot d d := by
      simp only [Vec3.dot, Vec3.scale]; ring
    rw [this, hd, mul_one]
  have hoc : Vec3.sub (Vec3.scale (-L) d) (Vec4.xyz ⟨0, 0, 0, r⟩) = Vec3.scale (-L) d := by
    simp [Vec3.sub, Vec4.xyz]
  have hdisc : 2 * -L * (2 * -L) - 4 * 1 * (L * L - r * r) = (2 * r) * (2 * r) := by ring
  have hint : intersect_sphere sqrt eps (Vec3.scale (-L) d) d ⟨0, 0, 0, r⟩ = some (L - r) := by
    simp only [intersect_sphere, hoc, hoo, hod, hd, hdisc]
    rw [if_neg (not_lt.mpr heps), hsqrt (2 * r) (by linarith)]
    have h1 : (-(2 * -L) - 2 * r) / (2 * 1) = L - r := by ring
    have h2 : (-(2 * -L) + 2 * r) / (2 * 1) = L + r := by ring
    rw [h1, h2, if_pos (by linarith), if_pos (by linarith), min_eq_left (by linarith)]
  refine ⟨hoo, hint, ?_⟩
  simp only [closest_hit, closest_hit_from, hint]

/-- Witness for C12: the camera at distance 25 along `(3/5, 4/5, 0)`, a sphere of
radius 3/2, the rational square root and tolerance 0. -/
theorem ray_through_centre_hit_distance_witness :
    Vec3.dot ⟨3 / 5, 4 / 5, 0⟩ ⟨3 / 5, 4 / 5, 0⟩ = 1 ∧
    intersect_sphere Rat.sqrt 0 (Vec3.scale (-25) ⟨3 / 5, 4 / 5, 0⟩) ⟨3 / 5, 4 / 5, 0⟩
      ⟨0, 0, 0, 3 / 2⟩ = some (25 - 3 / 2) :=
  have hd : Vec3.dot ⟨3 / 5, 4 / 5, 0⟩ ⟨3 / 5, 4 / 5, 0⟩ = 1 := by
    simp only [Vec3.dot]
    norm_num
  ⟨hd, (ray_through_centre_hit_distance Rat.sqrt 0 ⟨3 / 5, 4 / 5, 0⟩ 25 (3 / 2)
    (fun x hx => by rw [Rat.sqrt_eq, abs_of_nonneg hx]) hd (by norm_num) (by norm_num)
    (by norm_num)).2.1⟩

/-! ## The hue of the lights in `update` -/

/-- A `double` in `[1 - 2^-25, 1)` narrows to the `float` 1. -/
theorem float_narrow_near_one (x : ℚ) (h₁ : 1 - 1 / 2 ^ 25 ≤ x) (h₂ : x < 1) :
    float_narrow x = 1 := by
  have hpos : 0 < x := by
    have : (0 : ℚ) < 1 - 1 / 2 ^ 25 := by norm_num
    linarith
  have hhalf : 1 / 2 ≤ x := by
    have : (1 / 2 : ℚ) ≤ 1 - 1 / 2 ^ 25 := by norm_num
    linarith
  have hceil : ⌈x⁻¹⌉₊ = 2 := by
    rw [Nat.ceil_eq_iff (by norm_num)]
    constructor
    · have : 1 < x⁻¹ := (one_lt_inv₀ hpos).mpr h₂
      simpa using this
    · rw [inv_le_comm₀ hpos (by norm_num)]
      norm_num
      linarith
  have hlog : Int.log 2 |x| = -1 := by
    have hclog : Nat.clog 2 2 = 1 := by
      have := Nat.clog_pow 2 1 (by norm_num)
      simpa using this
    rw [abs_of_pos hpos, Int.log_of_right_le_one 2 (le_of_lt h₂), hceil, hclog]
    rfl
  have hulp : (2 : ℚ) ^ ((-1 : ℤ) - 23) = 1 / 2 ^ 24 := by
    norm_num [zpow_neg]
  have hfloor : ⌊x / (1 / 2 ^ 24)⌋ = 2 ^ 24 - 1 := by
    rw [Int.floor_eq_iff]
    constructor
    · push_cast
      rw [le_div_iff₀ (by norm_num)]
      norm_num
      linarith
    · push_cast
      rw [div_lt_iff₀ (by norm_num)]
      norm_num
      linarith
  have hr : ¬ (x / (1 / 2 ^ 24) - ((2 ^ 24 - 1 : ℤ) : ℚ) < 1 / 2) := by
    push_cast
    rw [not_lt, div_eq_mul_inv]
    norm_num
    linarith
  have hround : round_half_even (x / (1 / 2 ^ 24)) = 2 ^ 24 := by
    simp only [round_half_even, hfloor, if_neg hr]
    split_ifs <;> first | rfl | omega
  simp only [float_narrow, hlog]
  rw [max_eq_left (by norm_num), hulp, hround]
  norm_num

theorem round_half_even_ge_floor (q : ℚ) : ⌊q⌋ ≤ round_half_even q := by
  simp only [round_half_even]
  split_ifs <;> omega

theorem float_narrow_nonneg (q : ℚ) (hq : 0 ≤ q) : 0 ≤ float_narrow q := by
  simp only [float_narrow]
  have hulp : (0 : ℚ) < 2 ^ (max (Int.log 2 |q|) (-126) - 23) := zpow_pos (by norm_num) _
  have hfl : 0 ≤ ⌊q / 2 ^ (max (Int.log 2 |q|) (-126) - 23)⌋ :=
    Int.floor_nonneg.mpr (div_nonneg hq (le_of_lt hulp))
  have hr : (0 : ℚ) ≤ (round_half_even (q / 2 ^ (max (Int.log 2 |q|) (-126) - 23)) : ℚ) := by
    exact_mod_cast le_trans hfl (round_half_even_ge_floor _)
  exact mul_nonneg hr (le_of_lt hulp)

/-- The colour that `update` gives light `i`. -/
theorem update_light_colour (env : Env) (delta : ℚ) (s : App) (i : Nat) (hi : i < 3) :
    ((update env delta s).phong_lights_ubo.map PhongLightData.diffuse)[i]? =
      some (HSVtoRGB (float_narrow (fract (env.base_update s.elapsed_time delta * (1 / 1000)
        * (1 / 10) + (33 / 100) * i)) * 360) 1 (8 / 10)) := by
  rw [update_lights]
  interval_cases i <;> simp [List.range_succ]

/-- As long as the narrowed fraction stays below 1, the colour of light `i` has all
components in `[0, 8/10]`. -/
theorem update_light_colour_in_cube (env : Env) (delta : ℚ) (s : App) (i : Nat)
    (hlt : float_narrow (fract (env.base_update s.elapsed_time delta * (1 / 1000)
      * (1 / 10) + (33 / 100) * i)) < 1) :
    (0 ≤ (HSVtoRGB (float_narrow (fract (env.base_update s.elapsed_time delta * (1 / 1000)
        * (1 / 10) + (33 / 100) * i)) * 360) 1 (8 / 10)).x ∧
      (HSVtoRGB (float_narrow (fract (env.base_update s.elapsed_time delta * (1 / 1000)
        * (1 / 10) + (33 / 100) * i)) * 360) 1 (8 / 10)).x ≤ 8 / 10) ∧
    (0 ≤ (HSVtoRGB (float_narrow (fract (env.base_update s.elapsed_time delta * (1 / 1000)
        * (1 / 10) + (33 / 100) * i)) * 360) 1 (8 / 10)).y ∧
      (HSVtoRGB (float_narrow (fract (env.base_update s.elapsed_time delta * (1 / 1000)
        * (1 / 10) + (33 / 100) * i)) * 360) 1 (8 / 10)).y ≤ 8 / 10) ∧
    (0 ≤ (HSVtoRGB (float_narrow (fract (env.base_update s.elapsed_time delta * (1 / 1000)
        * (1 / 10) + (33 / 100) * i)) * 360) 1 (8 / 10)).z ∧
      (HSVtoRGB (float_narrow (fract (env.base_update s.elapsed_time delta * (1 / 1000)
        * (1 / 10) + (33 / 100) * i)) * 360) 1 (8 / 10)).z ≤ 8 / 10) := by
  have h0 := float_narrow_nonneg _ (fract_range (env.base_update s.elapsed_time delta
    * (1 / 1000) * (1 / 10) + (33 / 100) * i)).1
  obtain ⟨lx, ly, lz, _, _⟩ := HSVtoRGB_in_colour_cube
    (float_narrow (fract (env.base_update s.elapsed_time delta * (1 / 1000)
      * (1 / 10) + (33 / 100) * i)) * 360) 1 (8 / 10) (by linarith) (by linarith)
    (by norm_num) (by norm_num)
  have hz : (8 / 10 : ℚ) * (1 - 1) = 0 := by norm_num
  rw [hz] at lx ly lz
  exact ⟨lx, ly, lz⟩

/-- C13: the colour of a light that `update` adds can leave the colour cube. At
`elapsed_time = 13926399/4096` ms the fraction for light 2 is
`40959999/40960000`, its narrowing to `float` is 1, the hue handed to `HSVtoRGB`
is 360, and the colour is `(8/10, 48/10, 0)`, whose green component is above
`8/10`; the state is reachable. -/
theorem light_colour_leaves_cube_at_hue_360 :
    Reachable (update demo_env (13926399 / 4096) demo_start) ∧
    fract (demo_env.base_update demo_start.elapsed_time (13926399 / 4096) * (1 / 1000)
      * (1 / 10) + (33 / 100) * (2 : Nat)) = 40959999 / 40960000 ∧
    float_narrow (40959999 / 40960000) * 360 = 360 ∧
    ((update demo_env (13926399 / 4096) demo_start).phong_lights_ubo.map
      PhongLightData.diffuse)[2]? = some ⟨8 / 10, 48 / 10, 0⟩ ∧
    ¬ ((48 / 10 : ℚ) ≤ 8 / 10) := by
  have hx : fract (demo_env.base_update demo_start.elapsed_time (13926399 / 4096) * (1 / 1000)
      * (1 / 10) + (33 / 100) * (2 : Nat)) = 40959999 / 40960000 := by
    have he : demo_env.base_update demo_start.elapsed_time (13926399 / 4096) =
        13926399 / 4096 := by
      show (0 : ℚ) + 13926399 / 4096 = 13926399 / 4096
      norm_num
    have hfl : ⌊(40959999 / 40960000 : ℚ)⌋ = 0 := by
      rw [Int.floor_eq_iff]
      norm_num
    rw [he]
    unfold fract
    norm_num [hfl]
  have hn : float_narrow (40959999 / 40960000) = 1 :=
    float_narrow_near_one _ (by norm_num) (by norm_num)
  refine ⟨Reachable.update _ _ _ demo_start_reachable, hx, by rw [hn]; norm_num, ?_, by norm_num⟩
  rw [update_light_colour demo_env (13926399 / 4096) demo_start 2 (by norm_num), hx, hn]
  have h360 : (1 : ℚ) * 360 = 360 := by norm_num
  rw [h360, HSVtoRGB_at_360]
  norm_num

end RayTracingScene
